import Mathlib

/-!
Verification of the external-dns-technitium-webhook record codec, remote API
envelope handling, connection orchestration and rate limiter, as a shallow
embedding of the Python sources in `src/external_dns_technitium_webhook/`.

Python strings are modelled as `String`, Python ints as `Int`, exceptions as
an `Except` error channel, and the async HTTP client calls as explicit
environments of call outcomes.  Uncaught Python exceptions are `Except.error`
values; returning `None` is `Option.none`.
-/

set_option maxHeartbeats 1000000

/-! ## Python string primitives -/

/-- Whitespace characters recognised by `str.split()` / `str.strip()`
(ASCII subset; the sources and claims only involve ASCII input). -/
def pyIsSpace (c : Char) : Bool :=
  c = ' ' || c = '\t' || c = '\n' || c = '\x0d' || c = '\x0b' || c = '\x0c'

/-- Strip characters satisfying `p` from both ends, as Python `str.strip`. -/
def pyStripChars (p : Char → Bool) (l : List Char) : List Char :=
  ((l.dropWhile p).reverse.dropWhile p).reverse

/-- Python `str.strip()` (whitespace from both ends). -/
def pyStrip (s : String) : String :=
  ⟨pyStripChars pyIsSpace s.data⟩

/-- Python `str.strip('"')` (double quotes from both ends). -/
def stripQuotes (s : String) : String :=
  ⟨pyStripChars (fun c => c = '"') s.data⟩

/-- Python `str.lstrip(chars)` on a single char set, used for `rstrip(".")`
via reversal. -/
def pyRstripDots (s : String) : String :=
  ⟨(s.data.reverse.dropWhile (fun c => c = '.')).reverse⟩

/-- `str.split(maxsplit=2)` on the underlying character list: split on runs
of whitespace, at most twice; the final chunk keeps its internal and
trailing whitespace verbatim. -/
def pySplitMax2Core (l : List Char) : List (List Char) :=
  let l0 := l.dropWhile pyIsSpace
  if l0 = [] then []
  else
    let t1 := l0.takeWhile (fun c => !pyIsSpace c)
    let r1 := (l0.dropWhile (fun c => !pyIsSpace c)).dropWhile pyIsSpace
    if r1 = [] then [t1]
    else
      let t2 := r1.takeWhile (fun c => !pyIsSpace c)
      let r2 := (r1.dropWhile (fun c => !pyIsSpace c)).dropWhile pyIsSpace
      if r2 = [] then [t1, t2] else [t1, t2, r2]

/-- `target.split(maxsplit=2)` as used throughout `_get_record_data`. -/
def pySplitMax2 (s : String) : List String :=
  (pySplitMax2Core s.data).map (fun l => ⟨l⟩)

/-- Decimal digit predicate (`'0'..'9'`). -/
def pyIsDigit (c : Char) : Bool :=
  '0' ≤ c && c ≤ '9'

/-- Numeric value of a decimal digit character. -/
def digitVal (c : Char) : Nat :=
  c.toNat - 48

/-- The canonical character of a decimal digit (as produced by `str(int)`). -/
def digitChar (d : Nat) : Char :=
  match d with
  | 0 => '0' | 1 => '1' | 2 => '2' | 3 => '3' | 4 => '4'
  | 5 => '5' | 6 => '6' | 7 => '7' | 8 => '8' | 9 => '9'
  | _ => '*'

/-- Fuel-driven digit expansion (structural recursion, so that the kernel
can evaluate it; the fuel `n + 1` always suffices). -/
def natDigitsGo : Nat → Nat → List Char
  | 0, _ => []
  | fuel + 1, n =>
      if n < 10 then [digitChar n]
      else natDigitsGo fuel (n / 10) ++ [digitChar (n % 10)]

/-- Digit string of a natural number, most significant digit first,
as produced by Python `str()` on a non-negative int. -/
def natDigits (n : Nat) : List Char :=
  natDigitsGo (n + 1) n

/-- Python `str(int)`. -/
def intToStr (i : Int) : String :=
  if i < 0 then ⟨'-' :: natDigits i.natAbs⟩ else ⟨natDigits i.natAbs⟩

/-- Accumulating parse of the digit/underscore tail of a Python int literal:
single underscores are permitted between digits only. -/
def parseDigitsCore (acc : Nat) : List Char → Option Nat
  | [] => some acc
  | c :: rest =>
      if pyIsDigit c then parseDigitsCore (acc * 10 + digitVal c) rest
      else if c = '_' then
        match rest with
        | c2 :: rest2 =>
            if pyIsDigit c2 then parseDigitsCore (acc * 10 + digitVal c2) rest2
            else none
        | [] => none
      else none

/-- Parse a non-empty digit group (`digit (digit | '_' digit)*`). -/
def parsePyDigits : List Char → Option Nat
  | [] => none
  | c :: rest => if pyIsDigit c then parseDigitsCore (digitVal c) rest else none

/-- Python `int(s)` for base 10: surrounding whitespace is ignored, an
optional single sign is allowed, and underscores may separate digits.
Returns `none` where Python raises `ValueError`. -/
def pyInt? (s : String) : Option Int :=
  match pyStripChars pyIsSpace s.data with
  | [] => none
  | c :: rest =>
      if c = '-' then (parsePyDigits rest).map (fun n : Nat => -(n : Int))
      else if c = '+' then (parsePyDigits rest).map (fun n : Nat => (n : Int))
      else (parsePyDigits (c :: rest)).map (fun n : Nat => (n : Int))

/-- ASCII lowercase of a string (`str.lower` restricted to ASCII, which is
all the sources compare). -/
def pyLower (s : String) : String :=
  ⟨s.data.map Char.toLower⟩

/-- Python `needle in haystack` on strings (contiguous substring). -/
def strContains (haystack needle : String) : Bool :=
  decide (needle.data <:+: haystack.data)

/-! ## IP literal validation (`ipaddress.IPv4Address` / `IPv6Address`) -/

/-- One dotted-quad octet: 1-3 decimal digits, no leading zero, value ≤ 255,
exactly the strings `ipaddress.IPv4Address` accepts per octet. -/
def isIPv4Octet (l : List Char) : Bool :=
  l ≠ [] && l.length ≤ 3 && l.all pyIsDigit &&
    (l.head? ≠ some '0' || l.length = 1) &&
    decide (l.foldl (fun a c => a * 10 + digitVal c) 0 ≤ 255)

/-- Split a character list on every occurrence of `sep` (Python
`str.split(sep)`: empty chunks are kept). -/
def splitOnChar (sep : Char) : List Char → List (List Char)
  | [] => [[]]
  | c :: rest =>
      if c = sep then [] :: splitOnChar sep rest
      else
        match splitOnChar sep rest with
        | x :: xs => (c :: x) :: xs
        | [] => [[c]]

/-- `ipaddress.IPv4Address(s)` succeeds: four dotted octets. -/
def isIPv4 (s : String) : Bool :=
  match splitOnChar '.' s.data with
  | [a, b, c, d] => isIPv4Octet a && isIPv4Octet b && isIPv4Octet c && isIPv4Octet d
  | _ => false

/-- One hexadecimal group of an IPv6 literal: 1-4 hex digits. -/
def isHexGroup (l : List Char) : Bool :=
  l ≠ [] && l.length ≤ 4 && l.all (fun c => c.isDigit ||
    ('a' ≤ c && c ≤ 'f') || ('A' ≤ c && c ≤ 'F'))

/-- Weight of a group list: a trailing dotted-quad counts as two groups and
may only appear last; returns `none` when some group is malformed. -/
def ipv6GroupWeight : List (List Char) → Option Nat
  | [] => some 0
  | [g] =>
      if isHexGroup g then some 1
      else if isIPv4 ⟨g⟩ then some 2
      else none
  | g :: rest =>
      if isHexGroup g then (ipv6GroupWeight rest).map (· + 1)
      else none

/-- Split at the first `"::"` occurrence, if any. -/
def findDoubleColon : List Char → Option (List Char × List Char)
  | [] => none
  | [_] => none
  | a :: b :: rest =>
      if a = ':' ∧ b = ':' then some ([], rest)
      else
        match findDoubleColon (b :: rest) with
        | some (l, r) => some (a :: l, r)
        | none => none

/-- `ipaddress.IPv6Address(s)` succeeds (unscoped literals; the claims never
involve zone-scoped addresses). Either eight groups without `::`, or a
single `::` compressing at least one zero group. -/
def isIPv6 (s : String) : Bool :=
  match findDoubleColon s.data with
  | none =>
      match ipv6GroupWeight (splitOnChar ':' s.data) with
      | some n => n = 8
      | none => false
  | some (l, r) =>
      if (findDoubleColon r).isSome then false
      else
        let lw := if l = [] then some 0 else ipv6GroupWeight (splitOnChar ':' l)
        let rw := if r = [] then some 0 else ipv6GroupWeight (splitOnChar ':' r)
        match lw, rw with
        | some a, some b => a + b ≤ 7
        | _, _ => false

/-! ## Python values and record-data dictionaries -/

/-- A Python value stored in a record-data dict: the codec only ever stores
ints and strings. -/
inductive PyVal where
  | int (i : Int)
  | str (s : String)
deriving DecidableEq, Repr

/-- The `dict[str, Any]` record data passed to/from the Technitium client. -/
abbrev RData := List (String × PyVal)

/-- `dict.get(k, default)`. -/
def rGet (d : RData) (k : String) (default : PyVal) : PyVal :=
  match d.find? (fun p => p.1 = k) with
  | some p => p.2
  | none => default

/-- `f"{v}"`: Python str() of a stored value. -/
def pyFormat : PyVal → String
  | .int i => intToStr i
  | .str s => s

/-! ## Exceptions (`technitium_client.py` error types and Python builtins) -/

/-- Payload of `TechnitiumError.__init__`. -/
structure TechErrorData where
  message : String
  errorMessage : Option String := none
  stackTrace : Option String := none
  innerError : Option String := none
deriving DecidableEq, Repr

/-- Uncaught Python exceptions flowing through the embedded code. The two
`technitium_client.py` classes get their own constructors;
`invalidTokenError` models the `InvalidTokenError` subclass of
`TechnitiumError`. -/
inductive PyExn where
  | valueError (msg : String)
  | runtimeError (msg : String)
  | attributeError (attr : String)
  | typeError (msg : String)
  | technitiumError (d : TechErrorData)
  | invalidTokenError (d : TechErrorData)
  | httpException (statusCode : Nat) (detail : String)
deriving DecidableEq, Repr

/-- `isinstance(exc, TechnitiumError)` (the subclass included). -/
def PyExn.isTechnitium : PyExn → Bool
  | .technitiumError _ => true
  | .invalidTokenError _ => true
  | _ => false

/-- `TechnitiumError.__str__`: message, then the API error message when it
differs, then the inner error, joined with `" | "`. -/
def techErrorStr (d : TechErrorData) : String :=
  let parts := [d.message]
  let parts := match d.errorMessage with
    | some em => if em ≠ d.message then parts ++ ["API Error: " ++ em] else parts
    | none => parts
  let parts := match d.innerError with
    | some ie => parts ++ ["Inner Error: " ++ ie]
    | none => parts
  String.intercalate " | " parts

/-- `str(exc)` for the exceptions our embedding raises. -/
def PyExn.toStr : PyExn → String
  | .valueError m => m
  | .runtimeError m => m
  | .attributeError a => a
  | .typeError m => m
  | .technitiumError d => techErrorStr d
  | .invalidTokenError d => techErrorStr d
  | .httpException _ detail => detail

/-! ## Record decode: `handlers._get_record_data` -/

/-- `int(tok)` inside `_get_record_data`: the source does *not* wrap these
calls in try/except, so a failed parse raises `ValueError`. -/
def pyIntExn (tok : String) : Except PyExn Int :=
  match pyInt? tok with
  | some i => .ok i
  | none => .error (.valueError ("invalid literal for int() with base 10: " ++ tok))

/-- `handlers._get_record_data(record_type, target)`: `Option.none` models
the explicit `return None`, `Except.error` an uncaught exception. -/
def getRecordData (record_type target : String) : Except PyExn (Option RData) :=
  if record_type = "A" then
    -- try: ipaddress.IPv4Address(target) except: return None
    if isIPv4 target then .ok (some [("ipAddress", .str target)]) else .ok none
  else if record_type = "AAAA" then
    if isIPv6 target then .ok (some [("ipAddress", .str target)]) else .ok none
  else if record_type = "CNAME" then .ok (some [("cname", .str target)])
  else if record_type = "TXT" then .ok (some [("text", .str target)])
  else if record_type = "ANAME" then .ok (some [("aname", .str target)])
  else if record_type = "CAA" then
    -- parts = target.split(maxsplit=2); len(parts) < 3 → None
    match pySplitMax2 target with
    | [flagsTok, tag, rest] => do
        let flags ← pyIntExn flagsTok
        .ok (some [("flags", .int flags), ("tag", .str tag),
                   ("value", .str (stripQuotes rest))])
    | _ => .ok none
  else if record_type = "URI" then
    match pySplitMax2 target with
    | [prioTok, weightTok, rest] => do
        let priority ← pyIntExn prioTok
        let weight ← pyIntExn weightTok
        .ok (some [("uriPriority", .int priority), ("uriWeight", .int weight),
                   ("uri", .str (stripQuotes rest))])
    | _ => .ok none
  else if record_type = "SSHFP" then
    match pySplitMax2 target with
    | [algTok, fpTypeTok, fingerprint] => do
        let algorithm ← pyIntExn algTok
        let fpType ← pyIntExn fpTypeTok
        .ok (some [("algorithm", .int algorithm), ("fingerprintType", .int fpType),
                   ("fingerprint", .str fingerprint)])
    | _ => .ok none
  else if record_type = "SVCB" ∨ record_type = "HTTPS" then
    match pySplitMax2 target with
    | [prioTok, targetName] => do
        let priority ← pyIntExn prioTok
        .ok (some [("svcPriority", .int priority), ("svcTargetName", .str targetName),
                   ("svcParams", .str "")])
    | [prioTok, targetName, params] => do
        let priority ← pyIntExn prioTok
        .ok (some [("svcPriority", .int priority), ("svcTargetName", .str targetName),
                   ("svcParams", .str params)])
    | _ => .ok none
  else .ok none

/-! ## Record encode: the per-type target formatting in `handlers.get_records` -/

/-- The supported record types of `get_records` (others are skipped). -/
def supportedRecordTypes : List String :=
  ["A", "AAAA", "CNAME", "TXT", "ANAME", "CAA", "URI", "SSHFP", "SVCB", "HTTPS"]

/-- The target list `get_records` builds from a record's `rData`
(`handlers.py` lines 141-172); `[]` for types outside the if/elif chain. -/
def extractTargets (record_type : String) (r_data : RData) : List String :=
  if record_type = "A" ∨ record_type = "AAAA" then
    [pyFormat (rGet r_data "ipAddress" (.str ""))]
  else if record_type = "CNAME" then [pyFormat (rGet r_data "cname" (.str ""))]
  else if record_type = "TXT" then [pyFormat (rGet r_data "text" (.str ""))]
  else if record_type = "ANAME" then [pyFormat (rGet r_data "aname" (.str ""))]
  else if record_type = "CAA" then
    let flags := rGet r_data "flags" (.int 0)
    let tag := rGet r_data "tag" (.str "")
    let value := rGet r_data "value" (.str "")
    [pyFormat flags ++ " " ++ pyFormat tag ++ " \"" ++ pyFormat value ++ "\""]
  else if record_type = "URI" then
    let priority := rGet r_data "priority" (.int 0)
    let weight := rGet r_data "weight" (.int 0)
    let uri := rGet r_data "uri" (.str "")
    [pyFormat priority ++ " " ++ pyFormat weight ++ " \"" ++ pyFormat uri ++ "\""]
  else if record_type = "SSHFP" then
    let algorithm := rGet r_data "algorithm" (.int 0)
    let fpType := rGet r_data "fingerprintType" (.int 0)
    let fingerprint := rGet r_data "fingerprint" (.str "")
    [pyFormat algorithm ++ " " ++ pyFormat fpType ++ " " ++ pyFormat fingerprint]
  else if record_type = "SVCB" ∨ record_type = "HTTPS" then
    let priority := rGet r_data "svcPriority" (.int 0)
    let target := rGet r_data "svcTargetName" (.str "")
    let params := rGet r_data "svcParams" (.str "")
    [pyStrip (pyFormat priority ++ " " ++ pyFormat target ++ " " ++ pyFormat params)]
  else []

/-! ## Webhook models and handler state (`models.py`, `app_state.py`) -/

/-- `models.Endpoint`, restricted to the fields the handlers read. -/
structure EndpointIn where
  dnsName : String
  recordType : String
  targets : List String
  recordTTL : Option Int := none
deriving DecidableEq, Repr

/-- `models.Changes`. -/
structure ChangesIn where
  create : Option (List EndpointIn) := none
  updateOld : Option (List EndpointIn) := none
  updateNew : Option (List EndpointIn) := none
  delete : Option (List EndpointIn) := none
deriving DecidableEq, Repr

/-- The readiness fields of `AppState` that the handlers consult. -/
structure HState where
  isReady : Bool
  isWritable : Bool
deriving DecidableEq, Repr

/-- `AppState.ensure_ready`. -/
def ensureReady (st : HState) : Except PyExn Unit :=
  if !st.isReady then .error (.runtimeError "Service not ready yet. Try again later.")
  else .ok ()

/-- `AppState.ensure_writable`. -/
def ensureWritable (st : HState) : Except PyExn Unit := do
  ensureReady st
  if !st.isWritable then .error (.runtimeError "Technitium endpoint is read-only")
  else .ok ()

/-- One remote record mutation issued by `apply_record`. -/
structure RecordCall where
  domain : String
  recordType : String
  data : RData
  ttl : Option Int := none
deriving DecidableEq, Repr

/-- Outcomes of the client's record mutations, per call. -/
structure ClientEnv where
  addRecord : RecordCall → Except PyExn Unit
  deleteRecord : RecordCall → Except PyExn Unit

/-- `handlers.sanitize_error_message`, abstracted: the sanitized text is not
load-bearing for any claim, so we keep the raw string (the source only
rewrites sensitive substrings). -/
def sanitizeErrorMessage (e : PyExn) : String :=
  e.toStr

/-- Trace of calls plus the handler's outcome: the HTTP status on success,
or the uncaught exception. -/
structure ApplyResult where
  outcome : Except PyExn Nat
  deleteCalls : List RecordCall
  addCalls : List RecordCall
deriving Repr

/-- The deletion loop of `apply_record` (lines 228-250): decode each target,
skip invalid (`None`) ones, call `delete_record`, wrap client failures into
an `HTTPException(500)`. Uncaught decode exceptions propagate. -/
def applyDeletions (env : ClientEnv) : List (EndpointIn × String) →
    Except PyExn (List RecordCall)
  | [] => .ok []
  | (ep, target) :: rest => do
      match ← getRecordData ep.recordType target with
      | none => applyDeletions env rest
      | some rd =>
          let call : RecordCall := ⟨ep.dnsName, ep.recordType, rd, none⟩
          match env.deleteRecord call with
          | .error e =>
              .error (.httpException 500 ("Failed to delete record: " ++ sanitizeErrorMessage e))
          | .ok () => do
              let others ← applyDeletions env rest
              .ok (call :: others)

/-- The addition loop of `apply_record` (lines 253-276). -/
def applyAdditions (env : ClientEnv) : List (EndpointIn × String) →
    Except PyExn (List RecordCall)
  | [] => .ok []
  | (ep, target) :: rest => do
      match ← getRecordData ep.recordType target with
      | none => applyAdditions env rest
      | some rd =>
          let call : RecordCall := ⟨ep.dnsName, ep.recordType, rd, ep.recordTTL⟩
          match env.addRecord call with
          | .error e =>
              .error (.httpException 500 ("Failed to add record: " ++ sanitizeErrorMessage e))
          | .ok () => do
              let others ← applyAdditions env rest
              .ok (call :: others)

/-- Flatten an endpoint list into (endpoint, target) pairs, matching the
nested `for ep / for target` loops. -/
def epTargets (eps : List EndpointIn) : List (EndpointIn × String) :=
  eps.flatMap (fun ep => ep.targets.map (fun t => (ep, t)))

/-- `handlers.apply_record`: readiness and writability checks, then
deletions (`delete` + `updateOld`), then additions (`create` + `updateNew`),
returning 204. -/
def applyRecord (st : HState) (env : ClientEnv) (changes : ChangesIn) : ApplyResult :=
  match ensureWritable st with
  | .error e => ⟨.error e, [], []⟩
  | .ok () =>
      let deletions := changes.delete.getD [] ++ changes.updateOld.getD []
      let additions := changes.create.getD [] ++ changes.updateNew.getD []
      if deletions = [] ∧ additions = [] then ⟨.ok 204, [], []⟩
      else
        match applyDeletions env (epTargets deletions) with
        | .error e => ⟨.error e, [], []⟩
        | .ok dels =>
            match applyAdditions env (epTargets additions) with
            | .error e => ⟨.error e, dels, []⟩
            | .ok adds => ⟨.ok 204, dels, adds⟩

/-- A record as returned by the remote `get records` call (`models.RecordInfo`,
the fields `get_records` reads). -/
structure RecordInfo where
  name : String
  type : String
  ttl : Int
  rData : RData
deriving DecidableEq, Repr

/-- The endpoint objects `get_records` builds. -/
structure EndpointOut where
  dnsName : String
  recordType : String
  recordTTL : Int
  targets : List String
deriving DecidableEq, Repr

/-- The translation loop of `handlers.get_records` (lines 112-174):
unsupported types are skipped, supported ones get their targets extracted. -/
def recordsToEndpoints (records : List RecordInfo) : List EndpointOut :=
  records.filterMap (fun r =>
    if r.type ∈ supportedRecordTypes then
      some ⟨r.name, r.type, r.ttl, extractTargets r.type r.rData⟩
    else none)

/-- `handlers.get_records`: readiness check, remote fetch, translation.
`fetch` is the outcome of `state.client.get_records(...)`. -/
def getRecordsHandler (st : HState) (fetch : Except PyExn (List RecordInfo)) :
    Except PyExn (List EndpointOut) := do
  ensureReady st
  let records ← fetch
  .ok (recordsToEndpoints records)

/-- `handlers.adjust_endpoints`: readiness check, then the input unchanged. -/
def adjustEndpointsHandler (st : HState) (endpoints : List EndpointIn) :
    Except PyExn (List EndpointIn) := do
  ensureReady st
  .ok endpoints

/-- Modelled from the spec: the application-level exception middleware of
`main.py` is absent from `src/` (only its unit tests are present:
`tests/unit/test_main.py` imports `exception_logging_middleware` from
`external_dns_technitium_webhook.main` and asserts that an exception whose
message contains "service not ready" — case-insensitively — yields HTTP 503
and any other uncaught exception yields 500, while an `HTTPException` keeps
its own status). The spec requires the readiness error to surface as a
distinct status: "503 if not ready". -/
def exceptionLoggingMiddleware (outcome : Except PyExn Nat) : Nat :=
  match outcome with
  | .ok status => status
  | .error (.httpException status _) => status
  | .error e =>
      if strContains (pyLower e.toStr) "service not ready" then 503 else 500

/-- HTTP status of a routed call: the handler's own status on success (200
for the JSON routes, 204 for apply), otherwise whatever the middleware maps
the exception to. -/
def routeStatus {α : Type} (okStatus : Nat) (outcome : Except PyExn α) : Nat :=
  exceptionLoggingMiddleware (outcome.map (fun _ => okStatus))

/-! ## Remote API envelope (`technitium_client._post_raw` / `_post`) -/

/-- JSON values, as parsed from the remote 2xx response body. -/
inductive Json where
  | null
  | bool (b : Bool)
  | num (i : Int)
  | str (s : String)
  | arr (xs : List Json)
  | obj (fields : List (String × Json))

/-- `dict.get(k)` on a JSON object's fields. -/
def jLookup (fields : List (String × Json)) (k : String) : Option Json :=
  match fields.find? (fun p => p.1 = k) with
  | some p => some p.2
  | none => none

/-- Python `str()` of a JSON value as it appears inside f-strings; only the
string case is load-bearing for any claim. -/
def jsonToPyStr : Json → String
  | .null => "None"
  | .bool b => if b then "True" else "False"
  | .num i => intToStr i
  | .str s => s
  | .arr _ => "[...]"
  | .obj _ => "{...}"

/-- `dict.get(k)` rendered through `str()` with a default, as
`result.get("errorMessage", "Unknown server error")` does. -/
def jGetStr (fields : List (String × Json)) (k : String) (default : String) : String :=
  match jLookup fields k with
  | some v => jsonToPyStr v
  | none => default

/-- `dict.get(k)` as an optional string (`stackTrace`, `innerErrorMessage`). -/
def jGetOptStr (fields : List (String × Json)) (k : String) : Option String :=
  (jLookup fields k).map jsonToPyStr

/-- `status == "some string"` where `status` may be any JSON value or
missing (`None`); Python's `==` between a non-string and a string is
`False`. -/
def statusIs (status : Option Json) (v : String) : Bool :=
  match status with
  | some (.str s) => s = v
  | _ => false

/-- The status dispatch of `_post_raw` (lines 185-201) on an already-parsed
JSON object: status `"error"`, `"invalid-token"`, anything other than
`"ok"`, or the envelope itself. -/
def postRawEnvelope (result : List (String × Json)) :
    Except PyExn (List (String × Json)) :=
  let status := jLookup result "status"
  if statusIs status "error" then
    let errorMsg := jGetStr result "errorMessage" "Unknown server error"
    .error (.technitiumError
      { message := "API error: " ++ errorMsg
        errorMessage := some errorMsg
        stackTrace := jGetOptStr result "stackTrace"
        innerError := jGetOptStr result "innerErrorMessage" })
  else if statusIs status "invalid-token" then
    .error (.invalidTokenError { message := "Invalid or expired token" })
  else if !statusIs status "ok" then
    .error (.technitiumError
      { message := "Unexpected response status: " ++
          (match status with | some v => jsonToPyStr v | none => "None") })
  else .ok result

/-- The payload extraction of `_post` (lines 216-223): the object under
`response`, with a missing or `null` payload replaced by `{}` and a
non-object payload raising `TechnitiumError`. -/
def postExtractPayload (result : List (String × Json)) :
    Except PyExn (List (String × Json)) :=
  match jLookup result "response" with
  | none => .ok []
  | some .null => .ok []
  | some (.obj fields) => .ok fields
  | some _ => .error (.technitiumError { message := "Unexpected response payload format" })

/-- `_post` on a parsed 2xx JSON object: status dispatch, then payload
extraction (the pydantic `model_validate` that follows is outside the
envelope contract). -/
def postEnvelope (result : List (String × Json)) :
    Except PyExn (List (String × Json)) := do
  let result ← postRawEnvelope result
  postExtractPayload result

/-! ## Zone options and catalog membership (`main.py`) -/

/-- `models.GetZoneOptionsResponse`, the fields `main.py` reads. -/
structure ZoneOptions where
  zone : String
  isReadOnly : Bool := false
  catalogZoneName : Option String := none
  availableCatalogZoneNames : List String := []
deriving DecidableEq, Repr

/-- `main._normalize_zone_name`. -/
def normalizeZoneName (name : Option String) : Option String :=
  match name with
  | none => none
  | some n =>
      if n = "" then none
      else
        let normalized := pyRstripDots (pyStrip n)
        if pyLower normalized = "" then none else some (pyLower normalized)

/-- Outcomes of the two remote calls `ensure_catalog_membership` may issue. -/
structure CatalogEnv where
  setZoneOptions : Except PyExn Unit
  refreshOptions : Except PyExn ZoneOptions

/-- The normalized set of advertised catalog names (the `available` set
comprehension in `ensure_catalog_membership`). -/
def availableNormalized (options : ZoneOptions) : List String :=
  (options.availableCatalogZoneNames.map (fun c => normalizeZoneName (some c))).reduceOption

/-- `main.ensure_catalog_membership`: returns the reported membership and the
number of enrollment (`set_zone_options`) calls issued. -/
def ensureCatalogMembership (env : CatalogEnv) (options : ZoneOptions)
    (catalogZone : String) : Except PyExn (Option String) × Nat :=
  let currentMembership := normalizeZoneName options.catalogZoneName
  let desiredMembership := catalogZone
  if currentMembership = some desiredMembership then (.ok currentMembership, 0)
  else
    let available := availableNormalized options
    if available ≠ [] ∧ desiredMembership ∉ available then (.ok currentMembership, 0)
    else
      match env.setZoneOptions with
      | .error e => (.error e, 1)
      | .ok () =>
          match env.refreshOptions with
          | .error e => (.error e, 1)
          | .ok refreshed => (.ok (normalizeZoneName refreshed.catalogZoneName), 1)

/-! ## Zone preparation (`main.ensure_zone_ready`, `main._fetch_zone_options`) -/

/-- `main._fetch_zone_options`: a `TechnitiumError` whose text contains
"not found" or "does not exist" means the zone is missing (`None`); any
other error propagates. -/
def fetchZoneOptions (result : Except PyExn ZoneOptions) :
    Except PyExn (Option ZoneOptions) :=
  match result with
  | .ok opts => .ok (some opts)
  | .error e =>
      if e.isTechnitium then
        let details := pyLower e.toStr
        if strContains details "not found" || strContains details "does not exist" then
          .ok none
        else .error e
      else .error e

/-- The error-message test of `_fetch_zone_options`: a `TechnitiumError`
whose lowercased text contains "not found" or "does not exist". -/
def isZoneMissingError (e : PyExn) : Bool :=
  e.isTechnitium &&
    (strContains (pyLower e.toStr) "not found" ||
     strContains (pyLower e.toStr) "does not exist")

/-- Outcomes of the remote calls `ensure_zone_ready` may issue, per call
site: the initial options fetch, zone creation, the post-creation re-fetch,
and the catalog reconciliation calls. -/
structure ZoneReadyEnv where
  fetch1 : Except PyExn ZoneOptions
  createZone : Except PyExn Unit
  fetch2 : Except PyExn ZoneOptions
  catalogEnv : CatalogEnv

/-- `main.ZonePreparationResult`. -/
structure ZonePreparationResult where
  zoneCreated : Bool
  isWritable : Bool
  serverRole : String
  catalogMembership : Option String
deriving DecidableEq, Repr

/-- The tail of `ensure_zone_ready` once options are in hand: role
derivation and optional catalog reconciliation. -/
def zoneReadyFinish (env : ZoneReadyEnv) (catalog : Option String)
    (zoneCreated : Bool) (opts : ZoneOptions) : Except PyExn ZonePreparationResult :=
  let membership := normalizeZoneName opts.catalogZoneName
  let serverRole := if opts.isReadOnly then "secondary" else "primary"
  match catalog with
  | some c =>
      if !opts.isReadOnly then
        match (ensureCatalogMembership env.catalogEnv opts c).1 with
        | .error e => .error e
        | .ok m => .ok ⟨zoneCreated, !opts.isReadOnly, serverRole, m⟩
      else .ok ⟨zoneCreated, !opts.isReadOnly, serverRole, membership⟩
  | none => .ok ⟨zoneCreated, !opts.isReadOnly, serverRole, membership⟩

/-- `main.ensure_zone_ready`, paired with the number of `create_zone` calls
issued. -/
def ensureZoneReady (env : ZoneReadyEnv) (zoneName : String) (catalog : Option String) :
    Except PyExn ZonePreparationResult × Nat :=
  match fetchZoneOptions env.fetch1 with
  | .error e => (.error e, 0)
  | .ok (some opts) => (zoneReadyFinish env catalog false opts, 0)
  | .ok none =>
      match env.createZone with
      | .error e => (.error e, 1)
      | .ok () =>
          match fetchZoneOptions env.fetch2 with
          | .error e => (.error e, 1)
          | .ok none =>
              (.error (.runtimeError
                ("Unable to load configuration for zone " ++ zoneName ++ " after creation")), 1)
          | .ok (some opts) => (zoneReadyFinish env catalog true opts, 1)

/-! ## Connection orchestrator (`main.setup_technitium_connection`): result types -/

/-- The shared readiness status published via `AppState.update_status`. -/
structure ConnStatus where
  ready : Bool
  writable : Bool
  serverRole : Option String
  catalogMembership : Option String
deriving DecidableEq, Repr

/-- The status published when no endpoint can be initialized. -/
def unreadyStatus : ConnStatus := ⟨false, false, none, none⟩

/-- Per-endpoint outcomes of the two effectful stages inside the `try`
block: `login` and `ensure_zone_ready`. -/
structure SetupEnv where
  login : String → Except PyExn Unit
  zoneReady : String → Except PyExn ZonePreparationResult

/-- Result of `setup_technitium_connection`: the published status, the
endpoints attempted in order, and the endpoint that fully succeeded. The
function itself always returns (failures are caught and logged). -/
structure SetupResult where
  status : ConnStatus
  attempted : List String
  successEndpoint : Option String
deriving DecidableEq, Repr

/-! ## Rate limiter (`middleware.RateLimiter`) -/

/-- Limiter parameters: `rate = requests_per_minute / 60.0` tokens per
second and the bucket cap `burst`. The float arithmetic of the source is
modelled over `ℚ`; every quantity in the claims is exactly representable. -/
structure RateLimiter where
  rate : ℚ
  burst : ℚ
deriving DecidableEq, Repr

/-- `RateLimiter.__init__(requests_per_minute, burst)`. -/
def rlInit (requestsPerMinute burst : ℚ) : RateLimiter :=
  ⟨requestsPerMinute / 60, burst⟩

/-- One key's bucket: the `tokens` and `last_update` defaultdict entries. -/
structure RLEntry where
  tokens : ℚ
  lastUpdate : ℚ
deriving DecidableEq, Repr

/-- The limiter's per-key state (both defaultdicts, keyed together). -/
abbrev RLState := List (String × RLEntry)

/-- Store a key's entry (insert or overwrite), the dict assignment
`self.tokens[k] = v` / `self.last_update[k] = v`. -/
def rlStore : RLState → String → RLEntry → RLState
  | [], key, e => [(key, e)]
  | (k', e') :: rest, key, e =>
      if k' = key then (key, e) :: rest else (k', e') :: rlStore rest key e

/-- Look up a key's entry. -/
def rlFind (st : RLState) (key : String) : Option RLEntry :=
  (st.find? (fun p => p.1 = key)).map (fun p => p.2)

/-- `RateLimiter.check_rate_limit(client_id)` at monotonic instant `now`
(the deterministic clock of the source's `now_fn` hook, so the first
observation's defaultdict initialization sees the same instant): refill
`tokens = min(burst, tokens + elapsed * rate)`, then consume one token when
at least `1.0` is available. -/
def checkRateLimit (rl : RateLimiter) (st : RLState) (key : String) (now : ℚ) :
    Bool × RLState :=
  let entry := (rlFind st key).getD ⟨rl.burst, now⟩
  let timePassed := now - entry.lastUpdate
  let tokens := min rl.burst (entry.tokens + timePassed * rl.rate)
  if tokens ≥ 1 then (true, rlStore st key ⟨tokens - 1, now⟩)
  else (false, rlStore st key ⟨tokens, now⟩)

/-- Run a sequence of `check_rate_limit` calls for one key at the given
instants, collecting the allow/deny answers. -/
def rlRun (rl : RateLimiter) (key : String) : RLState → List ℚ → List Bool × RLState
  | st, [] => ([], st)
  | st, t :: ts =>
      let (allowed, st1) := checkRateLimit rl st key t
      let (answers, st2) := rlRun rl key st1 ts
      (allowed :: answers, st2)

/-! ## `Config` and `AppState.__init__` (`config.py`, `app_state.py`) -/

/-- `config.Config`: the pydantic settings model's declared fields. -/
structure Config where
  listen_address : String := "0.0.0.0"
  listen_port : Int := 3000
  technitium_url : String
  technitium_username : String
  technitium_password : String
  zone : String
  domain_filters : Option String := none
  log_level : String := "INFO"
  technitium_timeout : ℚ := 10
  requests_per_minute : Int := 1000
  rate_limit_burst : Int := 10
  technitium_failover_urls : Option String := none
  catalog_zone : Option String := none
  technitium_verify_ssl : Bool := true
  technitium_ca_bundle : Option String := none

/-- The attribute names a `Config` instance exposes: the declared pydantic
fields plus the properties and methods defined on the class. Accessing any
other attribute on a pydantic model raises `AttributeError`. -/
def configAttrNames : List String :=
  ["listen_address", "listen_port", "technitium_url", "technitium_username",
   "technitium_password", "zone", "domain_filters", "log_level",
   "technitium_timeout", "requests_per_minute", "rate_limit_burst",
   "technitium_failover_urls", "catalog_zone", "technitium_verify_ssl",
   "technitium_ca_bundle",
   "domain_filter_list", "technitium_endpoints", "catalog_zone_name",
   "bind_address", "model_dump"]

/-- The keyword parameters `TechnitiumClient.__init__` accepts
(`technitium_client.py` lines 80-87). -/
def technitiumClientInitParams : List String :=
  ["base_url", "token", "timeout", "verify_ssl", "ca_bundle"]

/-- Attribute access on a `Config` value: `AttributeError` for names outside
the model. -/
def configGetAttr (name : String) : Except PyExn Unit :=
  if name ∈ configAttrNames then .ok ()
  else .error (.attributeError ("'Config' object has no attribute '" ++ name ++ "'"))

/-- `AppState.__init__(config)` (`app_state.py` lines 26-56), modelled up to
its first effect: constructing the `TechnitiumClient`. Python evaluates the
keyword-argument values left to right before the call, so the attribute
reads happen in source order; a call with a keyword parameter the callee
does not declare raises `TypeError`. -/
def appStateInit (_config : Config) : Except PyExn Unit := do
  configGetAttr "technitium_url"
  configGetAttr "technitium_timeout"
  configGetAttr "technitium_verify_ssl"
  configGetAttr "technitium_ca_bundle_file"
  configGetAttr "technitium_enable_request_compression"
  configGetAttr "technitium_compression_threshold_bytes"
  if "enable_request_compression" ∉ technitiumClientInitParams then
    .error (.typeError
      "TechnitiumClient.__init__() got an unexpected keyword argument 'enable_request_compression'")
  else if "compression_threshold_bytes" ∉ technitiumClientInitParams then
    .error (.typeError
      "TechnitiumClient.__init__() got an unexpected keyword argument 'compression_threshold_bytes'")
  else .ok ()

/-! ## Connection orchestrator (`main.setup_technitium_connection`): the function -/

/-- `base_url.rstrip("/")`, the normalization `AppState.set_active_endpoint`
applies to its argument (`app_state.py` line 90). -/
def rstripSlash (s : String) : String :=
  ⟨(s.data.reverse.dropWhile (fun c => c = '/')).reverse⟩

/-- `AppState.set_active_endpoint(base_url)` (`app_state.py` lines 87-105):
when the normalized URL equals the current `client.base_url`, the client is
kept and only `active_endpoint` is updated; otherwise a replacement
`TechnitiumClient` is constructed from the config, whose keyword-argument
values are evaluated left to right — `technitium_timeout`,
`technitium_verify_ssl`, then `technitium_ca_bundle_file`, an attribute the
staged `Config` does not define, so that read raises `AttributeError` (and
the compression attributes and keywords after it would fail the same way).
Returns the resulting `client.base_url`. -/
def setActiveEndpoint (clientBaseUrl endpoint : String) : Except PyExn String :=
  if clientBaseUrl = rstripSlash endpoint then .ok clientBaseUrl
  else do
    configGetAttr "technitium_timeout"
    configGetAttr "technitium_verify_ssl"
    configGetAttr "technitium_ca_bundle_file"
    configGetAttr "technitium_enable_request_compression"
    configGetAttr "technitium_compression_threshold_bytes"
    if "enable_request_compression" ∉ technitiumClientInitParams then
      .error (.typeError
        "TechnitiumClient.__init__() got an unexpected keyword argument 'enable_request_compression'")
    else if "compression_threshold_bytes" ∉ technitiumClientInitParams then
      .error (.typeError
        "TechnitiumClient.__init__() got an unexpected keyword argument 'compression_threshold_bytes'")
    else .ok (rstripSlash endpoint)

/-- The endpoint loop of `setup_technitium_connection` (`main.py` lines
209-267): each iteration runs `set_active_endpoint`, `login` and
`ensure_zone_ready` inside a `try` whose blanket `except Exception` records
the failure and moves to the next endpoint; when `set_active_endpoint`
raises, the current client — and hence its `base_url` — is left
unchanged. -/
def setupLoop (env : SetupEnv) (baseUrl : String) (attempted : List String) :
    List String → SetupResult
  | [] => ⟨unreadyStatus, attempted, none⟩
  | endpoint :: rest =>
      match setActiveEndpoint baseUrl endpoint with
      | .error _ => setupLoop env baseUrl (attempted ++ [endpoint]) rest
      | .ok newBase =>
          match env.login endpoint with
          | .error _ => setupLoop env newBase (attempted ++ [endpoint]) rest
          | .ok () =>
              match env.zoneReady endpoint with
              | .error _ => setupLoop env newBase (attempted ++ [endpoint]) rest
              | .ok zoneResult =>
                  ⟨⟨true, zoneResult.isWritable, some zoneResult.serverRole,
                     zoneResult.catalogMembership⟩,
                   attempted ++ [endpoint], some endpoint⟩

/-- `main.setup_technitium_connection` (`main.py` lines 182-281), over the
current `client.base_url` and the configured endpoint list. Its first
statement (lines 190-193) is a debug log whose f-string eagerly reads
`state.config.technitium_verify_ssl` and then
`state.config.technitium_ca_bundle_file` — regardless of log level, and
before any endpoint is attempted or any status published. After it, an
empty endpoint list publishes the unready status immediately, and otherwise
the endpoint loop runs, publishing the unready status if no endpoint
succeeds; failures are caught, so past the entry reads the function itself
returns rather than raising. -/
def setupTechnitiumConnection (env : SetupEnv) (baseUrl : String)
    (endpoints : List String) : Except PyExn SetupResult := do
  configGetAttr "technitium_verify_ssl"
  configGetAttr "technitium_ca_bundle_file"
  if endpoints = [] then .ok ⟨unreadyStatus, [], none⟩
  else .ok (setupLoop env baseUrl [] endpoints)

/-- A single endpoint's attempt fails: `set_active_endpoint`, `login` or
zone preparation raises. -/
def attemptFails (env : SetupEnv) (baseUrl : String) (endpoint : String) : Bool :=
  match setActiveEndpoint baseUrl endpoint with
  | .error _ => true
  | .ok _ =>
      match env.login endpoint with
      | .error _ => true
      | .ok () =>
          match env.zoneReady endpoint with
          | .error _ => true
          | .ok _ => false

/-! ## Helper lemmas: whitespace tokens, splitting and stripping -/

/-- A whitespace-free, non-empty chunk, as produced by `str.split`. -/
def IsToken (l : List Char) : Prop :=
  l ≠ [] ∧ ∀ c ∈ l, pyIsSpace c = false

theorem dropWhile_all_false {p : Char → Bool} : ∀ {l : List Char},
    (∀ c ∈ l, p c = false) → l.dropWhile p = l := by
  intro l h
  induction l with
  | nil => rfl
  | cons a t _ =>
      have ha : p a = false := h a (List.mem_cons_self a t)
      simp [List.dropWhile, ha]

theorem dropWhile_head_false {p : Char → Bool} : ∀ {l : List Char} {x : Char} {xs : List Char},
    l.dropWhile p = x :: xs → p x = false := by
  intro l
  induction l with
  | nil => intro x xs h; simp [List.dropWhile] at h
  | cons a t ih =>
      intro x xs h
      by_cases hpa : p a
      · exact ih (by simpa [List.dropWhile, hpa] using h)
      · have : a :: t = x :: xs := by simpa [List.dropWhile, hpa] using h
        cases this
        simpa using hpa

theorem pyIsSpace_space : pyIsSpace ' ' = true := by decide

theorem dropWhile_suffix (p : Char → Bool) : ∀ l : List Char, l.dropWhile p <:+ l := by
  intro l
  induction l with
  | nil => exact List.suffix_refl []
  | cons a t ih =>
      by_cases hpa : p a
      · simpa [List.dropWhile, hpa] using ih.trans (List.suffix_cons a t)
      · simp [List.dropWhile, hpa]

theorem takeWhile_append_sep {t : List Char} {sep : Char} {r : List Char}
    (hsep : pyIsSpace sep = true) (h : ∀ c ∈ t, pyIsSpace c = false) :
    (t ++ sep :: r).takeWhile (fun c => !pyIsSpace c) = t ∧
    (t ++ sep :: r).dropWhile (fun c => !pyIsSpace c) = sep :: r := by
  induction t with
  | nil => simp [List.takeWhile, List.dropWhile, hsep]
  | cons a t ih =>
      have ha : pyIsSpace a = false := h a (List.mem_cons_self a t)
      have iht := ih (fun c hc => h c (List.mem_cons_of_mem a hc))
      simp [List.takeWhile, List.dropWhile, ha, iht.1, iht.2]

theorem takeWhile_all {t : List Char} (h : ∀ c ∈ t, pyIsSpace c = false) :
    t.takeWhile (fun c => !pyIsSpace c) = t ∧
    t.dropWhile (fun c => !pyIsSpace c) = [] := by
  induction t with
  | nil => simp
  | cons a t ih =>
      have ha : pyIsSpace a = false := h a (List.mem_cons_self a t)
      have iht := ih (fun c hc => h c (List.mem_cons_of_mem a hc))
      simp [List.takeWhile, List.dropWhile, ha, iht.1, iht.2]

/-- Canonical two-chunk input: `split(maxsplit=2)` of `t1 ++ " " ++ t2`. -/
theorem splitCore_two {t1 t2 : List Char} (h1 : IsToken t1) (h2 : IsToken t2) :
    pySplitMax2Core (t1 ++ (' ' :: t2)) = [t1, t2] := by
  obtain ⟨hn1, hw1⟩ := h1
  obtain ⟨hn2, hw2⟩ := h2
  obtain ⟨a1, t1', rfl⟩ := List.exists_cons_of_ne_nil hn1
  have ha1 : pyIsSpace a1 = false := hw1 a1 (by simp)
  have hdrop0 : ((a1 :: t1') ++ ' ' :: t2).dropWhile pyIsSpace = (a1 :: t1') ++ ' ' :: t2 := by
    simp [List.dropWhile, ha1]
  have htk := takeWhile_append_sep (t := a1 :: t1') (r := t2) (show pyIsSpace ' ' = true by decide) hw1
  have hdr1 : (' ' :: t2).dropWhile pyIsSpace = t2 := by
    obtain ⟨a2, t2', rfl⟩ := List.exists_cons_of_ne_nil hn2
    have ha2 : pyIsSpace a2 = false := hw2 a2 (by simp)
    simp [List.dropWhile, ha2, pyIsSpace_space]
  have htk2 := takeWhile_all hw2
  simp only [pySplitMax2Core, List.cons_append] at *
  simp only [hdrop0, htk.1, htk.2, hdr1, htk2.1, htk2.2]
  simp [hn2]

/-- Canonical three-chunk input: `split(maxsplit=2)` of
`t1 ++ " " ++ t2 ++ " " ++ r` with `r` starting on a non-space. -/
theorem splitCore_three {t1 t2 r : List Char} (h1 : IsToken t1) (h2 : IsToken t2)
    (hr : ∃ ch cs, r = ch :: cs ∧ pyIsSpace ch = false) :
    pySplitMax2Core (t1 ++ (' ' :: (t2 ++ (' ' :: r)))) = [t1, t2, r] := by
  obtain ⟨hn1, hw1⟩ := h1
  obtain ⟨hn2, hw2⟩ := h2
  obtain ⟨ch, cs, rfl, hch⟩ := hr
  obtain ⟨a1, t1', rfl⟩ := List.exists_cons_of_ne_nil hn1
  have ha1 : pyIsSpace a1 = false := hw1 a1 (by simp)
  have hdrop0 : ((a1 :: t1') ++ ' ' :: t2 ++ ' ' :: ch :: cs).dropWhile pyIsSpace
      = (a1 :: t1') ++ ' ' :: t2 ++ ' ' :: ch :: cs := by
    simp [List.dropWhile, ha1]
  have htk := takeWhile_append_sep (t := a1 :: t1') (r := t2 ++ ' ' :: ch :: cs) (show pyIsSpace ' ' = true by decide) hw1
  have hdr1 : (' ' :: (t2 ++ ' ' :: ch :: cs)).dropWhile pyIsSpace = t2 ++ ' ' :: ch :: cs := by
    obtain ⟨a2, t2', rfl⟩ := List.exists_cons_of_ne_nil hn2
    have ha2 : pyIsSpace a2 = false := hw2 a2 (by simp)
    simp [List.dropWhile, ha2, pyIsSpace_space]
  have htk2 := takeWhile_append_sep (t := t2) (r := ch :: cs) (show pyIsSpace ' ' = true by decide) hw2
  have hdr2 : (' ' :: ch :: cs).dropWhile pyIsSpace = ch :: cs := by
    simp [List.dropWhile, hch, pyIsSpace_space]
  simp only [pySplitMax2Core, List.cons_append, List.append_assoc] at *
  simp only [hdrop0, htk.1, htk.2, hdr1, htk2.1, htk2.2, hdr2]
  simp

theorem takeWhile_isToken {l : List Char} {x : Char} {xs : List Char}
    (h : l.dropWhile pyIsSpace = x :: xs) :
    IsToken ((x :: xs).takeWhile (fun c => !pyIsSpace c)) := by
  have hx : pyIsSpace x = false := dropWhile_head_false h
  constructor
  · simp [List.takeWhile, hx]
  · intro c hc
    simpa using List.mem_takeWhile_imp hc

/-- Shape of a three-chunk split result: the first two chunks are tokens,
the third is non-empty, starts on a non-space, and is a literal suffix of
the input. -/
theorem splitCore_shape3 {l a b c : List Char} (h : pySplitMax2Core l = [a, b, c]) :
    IsToken a ∧ IsToken b ∧ (∃ ch cs, c = ch :: cs ∧ pyIsSpace ch = false) ∧ c <:+ l := by
  unfold pySplitMax2Core at h
  by_cases h0 : l.dropWhile pyIsSpace = []
  · simp [h0] at h
  · obtain ⟨x, xs, hx⟩ := List.exists_cons_of_ne_nil h0
    rw [hx] at h
    simp only [if_neg (by simp : (x :: xs : List Char) ≠ [])] at h
    by_cases h1 : ((x :: xs).dropWhile (fun c => !pyIsSpace c)).dropWhile pyIsSpace = []
    · simp [h1] at h
    · obtain ⟨y, ys, hy⟩ := List.exists_cons_of_ne_nil h1
      rw [hy] at h
      simp only [if_neg (by simp : (y :: ys : List Char) ≠ [])] at h
      by_cases h2 : ((y :: ys).dropWhile (fun c => !pyIsSpace c)).dropWhile pyIsSpace = []
      · simp [h2] at h
      · simp only [if_neg h2, List.cons.injEq, and_true] at h
        obtain ⟨ha, hb, hc⟩ := h
        have hta : IsToken a := ha ▸ takeWhile_isToken hx
        have htb : IsToken b := hb ▸ takeWhile_isToken hy
        obtain ⟨z, zs, hz⟩ := List.exists_cons_of_ne_nil (hc ▸ h2)
        have hzw : pyIsSpace z = false := by
          have : ((y :: ys).dropWhile (fun c => !pyIsSpace c)).dropWhile pyIsSpace = z :: zs := by
            rw [hc, hz]
          exact dropWhile_head_false this
        refine ⟨hta, htb, ⟨z, zs, hz, hzw⟩, ?_⟩
        have s1 : (x :: xs : List Char) <:+ l := hx ▸ dropWhile_suffix pyIsSpace l
        have s2 : ((x :: xs).dropWhile (fun c => !pyIsSpace c)) <:+ (x :: xs) :=
          dropWhile_suffix _ _
        have s3 : (y :: ys : List Char) <:+ ((x :: xs).dropWhile (fun c => !pyIsSpace c)) :=
          hy ▸ dropWhile_suffix _ _
        have s4 : ((y :: ys).dropWhile (fun c => !pyIsSpace c)) <:+ (y :: ys) :=
          dropWhile_suffix _ _
        have s5 : c <:+ ((y :: ys).dropWhile (fun c => !pyIsSpace c)) :=
          hc ▸ dropWhile_suffix _ _
        exact s5.trans (s4.trans (s3.trans (s2.trans s1)))

/-- Shape of a two-chunk split result: both chunks are tokens. -/
theorem splitCore_shape2 {l a b : List Char} (h : pySplitMax2Core l = [a, b]) :
    IsToken a ∧ IsToken b := by
  unfold pySplitMax2Core at h
  by_cases h0 : l.dropWhile pyIsSpace = []
  · simp [h0] at h
  · obtain ⟨x, xs, hx⟩ := List.exists_cons_of_ne_nil h0
    rw [hx] at h
    simp only [if_neg (by simp : (x :: xs : List Char) ≠ [])] at h
    by_cases h1 : ((x :: xs).dropWhile (fun c => !pyIsSpace c)).dropWhile pyIsSpace = []
    · simp [h1] at h
    · obtain ⟨y, ys, hy⟩ := List.exists_cons_of_ne_nil h1
      rw [hy] at h
      simp only [if_neg (by simp : (y :: ys : List Char) ≠ [])] at h
      by_cases h2 : ((y :: ys).dropWhile (fun c => !pyIsSpace c)).dropWhile pyIsSpace = []
      · rw [if_pos h2] at h
        simp only [List.cons.injEq, and_true] at h
        exact ⟨h.1 ▸ takeWhile_isToken hx, h.2 ▸ takeWhile_isToken hy⟩
      · rw [if_neg h2] at h
        simp at h

/-! ## Helper lemmas: `strip` boundary behaviour -/

theorem pyStripChars_head {p : Char → Bool} {l : List Char} {x : Char} {xs : List Char}
    (h : pyStripChars p l = x :: xs) : p x = false := by
  unfold pyStripChars at h
  have hpre : ((l.dropWhile p).reverse.dropWhile p).reverse <+: l.dropWhile p := by
    have h5 := List.reverse_prefix.mpr (dropWhile_suffix p (l.dropWhile p).reverse)
    rwa [List.reverse_reverse] at h5
  rw [h] at hpre
  obtain ⟨t, ht⟩ := hpre
  exact dropWhile_head_false (l := l) (by rw [ht.symm]; rfl)

theorem pyStripChars_getLast {p : Char → Bool} {l : List Char} {x : Char}
    (h : (pyStripChars p l).getLast? = some x) : p x = false := by
  unfold pyStripChars at h
  rw [List.getLast?_reverse] at h
  rcases hd : (l.dropWhile p).reverse.dropWhile p with _ | ⟨y, ys⟩
  · rw [hd] at h; simp at h
  · rw [hd] at h
    simp only [List.head?_cons, Option.some.injEq] at h
    exact h ▸ dropWhile_head_false hd

/-- Stripping is the identity on a list whose two boundary characters do not
satisfy `p`. -/
theorem pyStripChars_eq_self {p : Char → Bool} {l : List Char}
    (hh : ∀ c, l.head? = some c → p c = false)
    (hl : ∀ c, l.getLast? = some c → p c = false) :
    pyStripChars p l = l := by
  unfold pyStripChars
  rcases l with _ | ⟨a, t⟩
  · rfl
  · have ha : p a = false := hh a rfl
    have h1 : (a :: t).dropWhile p = a :: t := by simp [List.dropWhile, ha]
    rw [h1]
    rcases hlast : (a :: t).getLast? with _ | z
    · simp at hlast
    · have hz : p z = false := hl z hlast
      have h2 : (a :: t).reverse.head? = some z := by
        rw [List.head?_reverse]; exact hlast
      rcases hrev : (a :: t).reverse with _ | ⟨b, bs⟩
      · simp at hrev
      · rw [hrev] at h2
        simp only [List.head?_cons, Option.some.injEq] at h2
        have : (b :: bs).dropWhile p = b :: bs := by
          simp [List.dropWhile, h2 ▸ hz]
        rw [this, ← hrev, List.reverse_reverse]

/-- Stripping `w`-characters from `w :: y ++ [w]` recovers `y` when `y`'s own
boundary characters are not `w`-like (the shape `'"' + value + '"'` takes
after `value = rest.strip('"')`). -/
theorem pyStripChars_wrap {p : Char → Bool} {y : List Char} {w : Char} (hw : p w = true)
    (hh : ∀ c, y.head? = some c → p c = false)
    (hl : ∀ c, y.getLast? = some c → p c = false) :
    pyStripChars p (w :: y ++ [w]) = y := by
  unfold pyStripChars
  rcases y with _ | ⟨a, t⟩
  · simp [List.dropWhile, hw]
  · have ha : p a = false := hh a rfl
    have h1 : (w :: (a :: t) ++ [w]).dropWhile p = (a :: t) ++ [w] := by
      simp [List.dropWhile, hw, ha]
    rw [h1]
    have h2 : ((a :: t) ++ [w]).reverse = w :: (a :: t).reverse := by simp
    rw [h2]
    have h3 : (w :: (a :: t).reverse).dropWhile p = (a :: t).reverse.dropWhile p := by
      simp [List.dropWhile, hw]
    rw [h3]
    rcases hlast : (a :: t).getLast? with _ | z
    · simp at hlast
    · have hz : p z = false := hl z hlast
      have hzr : (a :: t).reverse.head? = some z := by
        rw [List.head?_reverse]; exact hlast
      rcases hrev : (a :: t).reverse with _ | ⟨b, bs⟩
      · simp at hrev
      · rw [hrev] at hzr
        simp only [List.head?_cons, Option.some.injEq] at hzr
        have h4 : (b :: bs).dropWhile p = b :: bs := by
          simp [List.dropWhile, hzr ▸ hz]
        calc ((b :: bs).dropWhile p).reverse
            = (b :: bs).reverse := by rw [h4]
          _ = a :: t := by rw [← hrev, List.reverse_reverse]

/-! ## Helper lemmas: decimal digits and `int`/`str` round-trips -/

theorem digitChar_spec {d : Nat} (h : d < 10) :
    pyIsDigit (digitChar d) = true ∧ digitVal (digitChar d) = d := by
  interval_cases d <;> exact ⟨by decide, by decide⟩

theorem natDigitsGo_fuel : ∀ (n : Nat) {fuel₁ fuel₂ : Nat}, n < fuel₁ → n < fuel₂ →
    natDigitsGo fuel₁ n = natDigitsGo fuel₂ n := by
  intro n
  induction n using Nat.strong_induction_on with
  | _ n ih =>
      intro fuel₁ fuel₂ h1 h2
      rcases fuel₁ with _ | f1
      · omega
      rcases fuel₂ with _ | f2
      · omega
      by_cases h : n < 10
      · simp [natDigitsGo, h]
      · have hlt : n / 10 < n := Nat.div_lt_self (by omega) (by omega)
        simp only [natDigitsGo, if_neg h]
        rw [ih (n / 10) hlt (show n / 10 < f1 by omega) (show n / 10 < f2 by omega)]

/-- The recursion equation of `natDigits`. -/
theorem natDigits_eq (n : Nat) : natDigits n
    = if n < 10 then [digitChar n] else natDigits (n / 10) ++ [digitChar (n % 10)] := by
  unfold natDigits
  by_cases h : n < 10
  · simp [natDigitsGo, h]
  · have hlt : n / 10 < n := Nat.div_lt_self (by omega) (by omega)
    simp only [natDigitsGo, if_neg h]
    rw [natDigitsGo_fuel (n / 10) (show n / 10 < n by omega)
      (show n / 10 < n / 10 + 1 by omega)]
    rfl

theorem natDigits_ne_nil (n : Nat) : natDigits n ≠ [] := by
  rw [natDigits_eq]
  by_cases h : n < 10 <;> simp [h]

theorem natDigits_all_digits (n : Nat) : ∀ c ∈ natDigits n, pyIsDigit c = true := by
  induction n using Nat.strong_induction_on with
  | _ n ih =>
      intro c hc
      rw [natDigits_eq] at hc
      by_cases h : n < 10
      · simp only [if_pos h, List.mem_singleton] at hc
        exact hc ▸ (digitChar_spec h).1
      · simp only [if_neg h, List.mem_append, List.mem_singleton] at hc
        rcases hc with hc | hc
        · exact ih (n / 10) (Nat.div_lt_self (by omega) (by omega)) c hc
        · exact hc ▸ (digitChar_spec (Nat.mod_lt n (by omega))).1

theorem natDigits_foldl (n : Nat) : ∀ acc : Nat,
    (natDigits n).foldl (fun a c => a * 10 + digitVal c) acc
      = acc * 10 ^ (natDigits n).length + n := by
  induction n using Nat.strong_induction_on with
  | _ n ih =>
      intro acc
      rw [natDigits_eq]
      by_cases h : n < 10
      · simp [if_pos h, (digitChar_spec h).2]
      · have hlt : n / 10 < n := Nat.div_lt_self (by omega) (by omega)
        simp only [if_neg h, List.foldl_append, List.length_append, List.length_singleton,
          List.foldl_cons, List.foldl_nil]
        rw [ih (n / 10) hlt acc, (digitChar_spec (Nat.mod_lt n (by omega))).2]
        have : acc * 10 ^ ((natDigits (n / 10)).length + 1)
            = acc * 10 ^ (natDigits (n / 10)).length * 10 := by ring
        rw [this]
        omega

theorem parseDigitsCore_all_digits : ∀ (ds : List Char) (acc : Nat),
    (∀ c ∈ ds, pyIsDigit c = true) →
    parseDigitsCore acc ds = some (ds.foldl (fun a c => a * 10 + digitVal c) acc) := by
  intro ds
  induction ds with
  | nil => intro acc _; rfl
  | cons c rest ih =>
      intro acc h
      have hc : pyIsDigit c = true := h c (List.mem_cons_self c rest)
      have hstep : parseDigitsCore acc (c :: rest)
          = parseDigitsCore (acc * 10 + digitVal c) rest := by
        rcases rest with _ | ⟨c2, rest2⟩
        · rw [parseDigitsCore.eq_3, if_pos hc]
        · rw [parseDigitsCore.eq_2, if_pos hc]
      rw [hstep, List.foldl_cons]
      exact ih _ (fun x hx => h x (List.mem_cons_of_mem c hx))

theorem parsePyDigits_natDigits (n : Nat) : parsePyDigits (natDigits n) = some n := by
  rcases hd : natDigits n with _ | ⟨c, rest⟩
  · exact absurd hd (natDigits_ne_nil n)
  · have hall := natDigits_all_digits n
    rw [hd] at hall
    have hc : pyIsDigit c = true := hall c (List.mem_cons_self c rest)
    simp only [parsePyDigits, hc, if_pos]
    rw [parseDigitsCore_all_digits rest (digitVal c)
      (fun x hx => hall x (List.mem_cons_of_mem c hx))]
    have hfold : (c :: rest).foldl (fun a c => a * 10 + digitVal c) 0
        = rest.foldl (fun a c => a * 10 + digitVal c) (digitVal c) := by
      simp [List.foldl_cons]
    have := natDigits_foldl n 0
    rw [hd] at this
    rw [hfold] at this
    rw [this]
    simp
theorem pyIsDigit_not_space {c : Char} (h : pyIsDigit c = true) : pyIsSpace c = false := by
  by_contra hne
  have hs : pyIsSpace c = true := by
    revert hne; cases pyIsSpace c <;> simp
  unfold pyIsSpace at hs
  simp only [Bool.or_eq_true, decide_eq_true_eq] at hs
  rcases hs with ((((h1 | h1) | h1) | h1) | h1) | h1 <;> (subst h1; revert h; decide)

theorem getLast?_mem_list {α : Type} {l : List α} {x : α} (h : l.getLast? = some x) :
    x ∈ l := by
  obtain ⟨hne, hx⟩ := List.mem_getLast?_eq_getLast h
  exact hx ▸ List.getLast_mem hne

/-- `str(int)` produces a whitespace-free, non-empty token. -/
theorem intToStr_isToken (i : Int) : IsToken (intToStr i).data := by
  unfold intToStr
  by_cases h : i < 0
  · simp only [if_pos h]
    refine ⟨by simp, ?_⟩
    intro c hc
    rcases List.mem_cons.mp hc with hc | hc
    · subst hc; decide
    · exact pyIsDigit_not_space (natDigits_all_digits _ c hc)
  · simp only [if_neg h]
    exact ⟨natDigits_ne_nil _, fun c hc =>
      pyIsDigit_not_space (natDigits_all_digits _ c hc)⟩

/-- Python `int(str(i)) == i`. -/
theorem pyInt?_intToStr (i : Int) : pyInt? (intToStr i) = some i := by
  have htok := intToStr_isToken i
  have hstrip : pyStripChars pyIsSpace (intToStr i).data = (intToStr i).data := by
    refine pyStripChars_eq_self ?_ ?_
    · intro c hc
      rcases hd : (intToStr i).data with _ | ⟨x, xs⟩
      · rw [hd] at hc; simp at hc
      · rw [hd] at hc
        simp only [List.head?_cons, Option.some.injEq] at hc
        exact htok.2 c (by rw [hd]; exact hc ▸ List.mem_cons_self x xs)
    · intro c hc
      exact htok.2 c (getLast?_mem_list hc)
  by_cases h : i < 0
  · have hdata : (intToStr i).data = '-' :: natDigits i.natAbs := by
      unfold intToStr; rw [if_pos h]
    unfold pyInt?
    rw [hstrip, hdata]
    simp only [if_pos rfl, if_true, parsePyDigits_natDigits, Option.map_some']
    congr 1
    rcases Int.natAbs_eq i with he | he <;> omega
  · have hdata : (intToStr i).data = natDigits i.natAbs := by
      unfold intToStr; rw [if_neg h]
    rcases hd : natDigits i.natAbs with _ | ⟨c, cs⟩
    · exact absurd hd (natDigits_ne_nil _)
    · have hc : pyIsDigit c = true :=
        natDigits_all_digits _ c (by rw [hd]; exact List.mem_cons_self c cs)
      have hcm : c ≠ '-' := by rintro rfl; revert hc; decide
      have hcp : c ≠ '+' := by rintro rfl; revert hc; decide
      unfold pyInt?
      rw [hstrip, hdata, hd]
      simp only [if_neg hcm, if_neg hcp]
      rw [← hd, parsePyDigits_natDigits]
      simp only [Option.map_some', Option.some.injEq]
      rcases Int.natAbs_eq i with he | he <;> omega

/-! ## Canonical decode lemmas: the encoder's output shapes re-decoded -/

theorem getRecordData_caa_canonical (f : Int) (tag v : List Char)
    (htag : IsToken tag)
    (hvh : ∀ c, v.head? = some c → (c = '"') = False)
    (hvl : ∀ c, v.getLast? = some c → (c = '"') = False) :
    getRecordData "CAA" ⟨(intToStr f).data ++ (' ' :: (tag ++ (' ' :: ('"' :: (v ++ ['"'])))))⟩
      = .ok (some [("flags", .int f), ("tag", .str ⟨tag⟩), ("value", .str ⟨v⟩)]) := by
  have hsplit : pySplitMax2
        ⟨(intToStr f).data ++ (' ' :: (tag ++ (' ' :: ('"' :: (v ++ ['"'])))))⟩
      = [⟨(intToStr f).data⟩, ⟨tag⟩, ⟨'"' :: (v ++ ['"'])⟩] := by
    unfold pySplitMax2
    rw [show (⟨(intToStr f).data ++ (' ' :: (tag ++ (' ' :: ('"' :: (v ++ ['"'])))))⟩ :
        String).data = (intToStr f).data ++ (' ' :: (tag ++ (' ' :: ('"' :: (v ++ ['"'])))))
      from rfl]
    rw [splitCore_three (intToStr_isToken f) htag ⟨'"', v ++ ['"'], rfl, by decide⟩]
    rfl
  have hquote : stripQuotes ⟨'"' :: (v ++ ['"'])⟩ = ⟨v⟩ := by
    unfold stripQuotes
    congr 1
    exact pyStripChars_wrap (by decide)
      (fun c hc => by
        have := hvh c hc
        simp only [decide_eq_false_iff_not]
        intro hcq
        rw [hcq] at this
        simp at this)
      (fun c hc => by
        have := hvl c hc
        simp only [decide_eq_false_iff_not]
        intro hcq
        rw [hcq] at this
        simp at this)
  simp only [getRecordData, hsplit]
  norm_num
  rw [show (⟨(intToStr f).data⟩ : String) = intToStr f from rfl]
  simp [pyIntExn, pyInt?_intToStr, hquote]
  rfl

theorem getRecordData_uri_canonical (p w : Int) (u : List Char)
    (huh : ∀ c, u.head? = some c → (c = '"') = False)
    (hul : ∀ c, u.getLast? = some c → (c = '"') = False) :
    getRecordData "URI"
        ⟨(intToStr p).data ++ (' ' :: ((intToStr w).data ++ (' ' :: ('"' :: (u ++ ['"'])))))⟩
      = .ok (some [("uriPriority", .int p), ("uriWeight", .int w), ("uri", .str ⟨u⟩)]) := by
  have hsplit : pySplitMax2
        ⟨(intToStr p).data ++ (' ' :: ((intToStr w).data ++ (' ' :: ('"' :: (u ++ ['"'])))))⟩
      = [⟨(intToStr p).data⟩, ⟨(intToStr w).data⟩, ⟨'"' :: (u ++ ['"'])⟩] := by
    unfold pySplitMax2
    rw [show (⟨(intToStr p).data ++
        (' ' :: ((intToStr w).data ++ (' ' :: ('"' :: (u ++ ['"'])))))⟩ : String).data
        = (intToStr p).data ++ (' ' :: ((intToStr w).data ++ (' ' :: ('"' :: (u ++ ['"'])))))
      from rfl]
    rw [splitCore_three (intToStr_isToken p) (intToStr_isToken w)
      ⟨'"', u ++ ['"'], rfl, by decide⟩]
    rfl
  have hquote : stripQuotes ⟨'"' :: (u ++ ['"'])⟩ = ⟨u⟩ := by
    unfold stripQuotes
    congr 1
    exact pyStripChars_wrap (by decide)
      (fun c hc => by
        have := huh c hc
        simp only [decide_eq_false_iff_not]
        intro hcq
        rw [hcq] at this
        simp at this)
      (fun c hc => by
        have := hul c hc
        simp only [decide_eq_false_iff_not]
        intro hcq
        rw [hcq] at this
        simp at this)
  simp only [getRecordData, hsplit]
  norm_num
  rw [show (⟨(intToStr p).data⟩ : String) = intToStr p from rfl,
      show (⟨(intToStr w).data⟩ : String) = intToStr w from rfl]
  simp [pyIntExn, pyInt?_intToStr, hquote]
  rfl

theorem getRecordData_sshfp_canonical (a ft : Int) (fp : List Char)
    (hfp : ∃ ch cs, fp = ch :: cs ∧ pyIsSpace ch = false) :
    getRecordData "SSHFP"
        ⟨(intToStr a).data ++ (' ' :: ((intToStr ft).data ++ (' ' :: fp)))⟩
      = .ok (some [("algorithm", .int a), ("fingerprintType", .int ft),
                   ("fingerprint", .str ⟨fp⟩)]) := by
  have hsplit : pySplitMax2
        ⟨(intToStr a).data ++ (' ' :: ((intToStr ft).data ++ (' ' :: fp)))⟩
      = [⟨(intToStr a).data⟩, ⟨(intToStr ft).data⟩, ⟨fp⟩] := by
    unfold pySplitMax2
    rw [show (⟨(intToStr a).data ++ (' ' :: ((intToStr ft).data ++ (' ' :: fp)))⟩ :
        String).data = (intToStr a).data ++ (' ' :: ((intToStr ft).data ++ (' ' :: fp)))
      from rfl]
    rw [splitCore_three (intToStr_isToken a) (intToStr_isToken ft) hfp]
    rfl
  simp only [getRecordData, hsplit]
  norm_num
  rw [show (⟨(intToStr a).data⟩ : String) = intToStr a from rfl,
      show (⟨(intToStr ft).data⟩ : String) = intToStr ft from rfl]
  simp [pyIntExn, pyInt?_intToStr]
  rfl

theorem getRecordData_svcb_two_canonical (rt : String) (hrt : rt = "SVCB" ∨ rt = "HTTPS")
    (p : Int) (tname : List Char) (ht : IsToken tname) :
    getRecordData rt ⟨(intToStr p).data ++ (' ' :: tname)⟩
      = .ok (some [("svcPriority", .int p), ("svcTargetName", .str ⟨tname⟩),
                   ("svcParams", .str "")]) := by
  have hsplit : pySplitMax2 ⟨(intToStr p).data ++ (' ' :: tname)⟩
      = [⟨(intToStr p).data⟩, ⟨tname⟩] := by
    unfold pySplitMax2
    rw [show (⟨(intToStr p).data ++ (' ' :: tname)⟩ : String).data
        = (intToStr p).data ++ (' ' :: tname) from rfl]
    rw [splitCore_two (intToStr_isToken p) ht]
    rfl
  have hne : ¬(rt = "A") ∧ ¬(rt = "AAAA") ∧ ¬(rt = "CNAME") ∧ ¬(rt = "TXT") ∧
      ¬(rt = "ANAME") ∧ ¬(rt = "CAA") ∧ ¬(rt = "URI") ∧ ¬(rt = "SSHFP") := by
    rcases hrt with rfl | rfl <;> refine ⟨?_, ?_, ?_, ?_, ?_, ?_, ?_, ?_⟩ <;> decide
  obtain ⟨h1, h2, h3, h4, h5, h6, h7, h8⟩ := hne
  simp only [getRecordData, if_neg h1, if_neg h2, if_neg h3, if_neg h4, if_neg h5,
    if_neg h6, if_neg h7, if_neg h8, if_pos hrt, hsplit]
  rw [show (⟨(intToStr p).data⟩ : String) = intToStr p from rfl]
  simp [pyIntExn, pyInt?_intToStr]
  rfl

theorem getRecordData_svcb_three_canonical (rt : String) (hrt : rt = "SVCB" ∨ rt = "HTTPS")
    (p : Int) (tname params : List Char) (ht : IsToken tname)
    (hparams : ∃ ch cs, params = ch :: cs ∧ pyIsSpace ch = false) :
    getRecordData rt ⟨(intToStr p).data ++ (' ' :: (tname ++ (' ' :: params)))⟩
      = .ok (some [("svcPriority", .int p), ("svcTargetName", .str ⟨tname⟩),
                   ("svcParams", .str ⟨params⟩)]) := by
  have hsplit : pySplitMax2 ⟨(intToStr p).data ++ (' ' :: (tname ++ (' ' :: params)))⟩
      = [⟨(intToStr p).data⟩, ⟨tname⟩, ⟨params⟩] := by
    unfold pySplitMax2
    rw [show (⟨(intToStr p).data ++ (' ' :: (tname ++ (' ' :: params)))⟩ : String).data
        = (intToStr p).data ++ (' ' :: (tname ++ (' ' :: params))) from rfl]
    rw [splitCore_three (intToStr_isToken p) ht hparams]
    rfl
  have hne : ¬(rt = "A") ∧ ¬(rt = "AAAA") ∧ ¬(rt = "CNAME") ∧ ¬(rt = "TXT") ∧
      ¬(rt = "ANAME") ∧ ¬(rt = "CAA") ∧ ¬(rt = "URI") ∧ ¬(rt = "SSHFP") := by
    rcases hrt with rfl | rfl <;> refine ⟨?_, ?_, ?_, ?_, ?_, ?_, ?_, ?_⟩ <;> decide
  obtain ⟨h1, h2, h3, h4, h5, h6, h7, h8⟩ := hne
  simp only [getRecordData, if_neg h1, if_neg h2, if_neg h3, if_neg h4, if_neg h5,
    if_neg h6, if_neg h7, if_neg h8, if_pos hrt, hsplit]
  rw [show (⟨(intToStr p).data⟩ : String) = intToStr p from rfl]
  simp [pyIntExn, pyInt?_intToStr]
  rfl

/-! ## Helper lemmas: `Except` bind reduction and split-result inversion -/

theorem exceptBind_ok {ε α β : Type} (a : α) (k : α → Except ε β) :
    (Except.ok a >>= k) = k a := rfl

theorem exceptBind_error {ε α β : Type} (e : ε) (k : α → Except ε β) :
    ((Except.error e : Except ε α) >>= k) = Except.error e := rfl

theorem pySplitMax2_eq3 {s : String} {a b c : String} (h : pySplitMax2 s = [a, b, c]) :
    pySplitMax2Core s.data = [a.data, b.data, c.data] := by
  unfold pySplitMax2 at h
  rcases hc : pySplitMax2Core s.data with _ | ⟨x, _ | ⟨y, _ | ⟨z, _ | ⟨w, r⟩⟩⟩⟩ <;>
      rw [hc] at h <;> simp_all
  exact ⟨by rw [← h.1], by rw [← h.2.1], by rw [← h.2.2]⟩

theorem pySplitMax2_eq2 {s : String} {a b : String} (h : pySplitMax2 s = [a, b]) :
    pySplitMax2Core s.data = [a.data, b.data] := by
  unfold pySplitMax2 at h
  rcases hc : pySplitMax2Core s.data with _ | ⟨x, _ | ⟨y, _ | ⟨z, r⟩⟩⟩ <;>
      rw [hc] at h <;> simp_all
  exact ⟨by rw [← h.1], by rw [← h.2]⟩

theorem caa_inversion {s : String} {d : RData} (h : getRecordData "CAA" s = .ok (some d)) :
    ∃ (a b c : String) (f : Int), pySplitMax2 s = [a, b, c] ∧ pyIntExn a = .ok f ∧
      d = [("flags", .int f), ("tag", .str b), ("value", .str (stripQuotes c))] := by
  have hne : ¬("CAA" = "A") ∧ ¬("CAA" = "AAAA") ∧ ¬("CAA" = "CNAME") ∧ ¬("CAA" = "TXT") ∧
      ¬("CAA" = "ANAME") := by refine ⟨?_, ?_, ?_, ?_, ?_⟩ <;> decide
  obtain ⟨h1, h2, h3, h4, h5⟩ := hne
  simp only [getRecordData, if_neg h1, if_neg h2, if_neg h3, if_neg h4, if_neg h5,
    if_pos rfl, if_true] at h
  rcases hs : pySplitMax2 s with _ | ⟨a, _ | ⟨b, _ | ⟨c, _ | ⟨x, rest⟩⟩⟩⟩ <;> rw [hs] at h
  · simp at h
  · simp at h
  · simp at h
  · have h' : (do
        let flags ← pyIntExn a
        Except.ok (some [("flags", PyVal.int flags), ("tag", PyVal.str b),
          ("value", PyVal.str (stripQuotes c))]) : Except PyExn (Option RData))
        = Except.ok (some d) := h
    rcases hint : pyIntExn a with e | f
    · rw [hint, exceptBind_error] at h'
      simp at h'
    · rw [hint, exceptBind_ok] at h'
      simp only [Except.ok.injEq, Option.some.injEq] at h'
      exact ⟨a, b, c, f, rfl, hint, h'.symm⟩
  · simp at h

/-- Boundary characters of a `strip('"')` result are never quotes. -/
theorem stripQuotes_head_free {c : String} :
    ∀ x, (stripQuotes c).data.head? = some x → (x = '"') = False := by
  intro x hx
  rcases hv : (stripQuotes c).data with _ | ⟨y, ys⟩
  · rw [hv] at hx; simp at hx
  · rw [hv] at hx
    simp only [List.head?_cons, Option.some.injEq] at hx
    have : pyStripChars (fun ch => ch = '"') c.data = y :: ys := hv
    have hy := pyStripChars_head this
    subst hx
    simp only [decide_eq_false_iff_not] at hy
    exact eq_false hy

theorem stripQuotes_last_free {c : String} :
    ∀ x, (stripQuotes c).data.getLast? = some x → (x = '"') = False := by
  intro x hx
  have : (pyStripChars (fun ch => ch = '"') c.data).getLast? = some x := hx
  have hy := pyStripChars_getLast this
  simp only [decide_eq_false_iff_not] at hy
  exact eq_false hy

/-- Decode-stability for CAA: re-decoding the encoder's output over a decoded
value gives the same value back. -/
theorem caa_stable {s : String} {d : RData} (h : getRecordData "CAA" s = .ok (some d)) :
    ∃ e : String, extractTargets "CAA" d = [e] ∧ getRecordData "CAA" e = .ok (some d) := by
  obtain ⟨a, b, c, f, hs, hint, rfl⟩ := caa_inversion h
  have hcore := pySplitMax2_eq3 hs
  obtain ⟨hta, htb, hcs, hsuf⟩ := splitCore_shape3 hcore
  refine ⟨intToStr f ++ " " ++ b ++ " \"" ++ stripQuotes c ++ "\"", ?_, ?_⟩
  · simp [extractTargets, rGet, pyFormat]
  · have he : (intToStr f ++ " " ++ b ++ " \"" ++ stripQuotes c ++ "\"" : String)
        = ⟨(intToStr f).data ++ (' ' :: (b.data ++ (' ' ::
            ('"' :: ((stripQuotes c).data ++ ['"'])))))⟩ := by
      have hdata : (intToStr f ++ " " ++ b ++ " \"" ++ stripQuotes c ++ "\"" : String).data
          = (intToStr f).data ++ (' ' :: (b.data ++ (' ' ::
              ('"' :: ((stripQuotes c).data ++ ['"']))))) := by
        show (((((intToStr f).data ++ [' ']) ++ b.data) ++ [' ', '"'])
            ++ (stripQuotes c).data) ++ ['"']
          = (intToStr f).data ++ (' ' :: (b.data ++ (' ' ::
              ('"' :: ((stripQuotes c).data ++ ['"'])))))
        simp [List.append_assoc]
      calc (intToStr f ++ " " ++ b ++ " \"" ++ stripQuotes c ++ "\"" : String)
          = ⟨(intToStr f ++ " " ++ b ++ " \"" ++ stripQuotes c ++ "\"" : String).data⟩ := rfl
        _ = _ := congrArg String.mk hdata
    rw [he]
    have := getRecordData_caa_canonical f b.data (stripQuotes c).data
      (by exact htb)
      (fun x hx => stripQuotes_head_free x hx)
      (fun x hx => stripQuotes_last_free x hx)
    simpa using this

theorem uri_inversion {s : String} {d : RData} (h : getRecordData "URI" s = .ok (some d)) :
    ∃ (a b c : String) (p w : Int), pySplitMax2 s = [a, b, c] ∧
      pyIntExn a = .ok p ∧ pyIntExn b = .ok w ∧
      d = [("uriPriority", .int p), ("uriWeight", .int w),
           ("uri", .str (stripQuotes c))] := by
  have hne : ¬("URI" = "A") ∧ ¬("URI" = "AAAA") ∧ ¬("URI" = "CNAME") ∧ ¬("URI" = "TXT") ∧
      ¬("URI" = "ANAME") ∧ ¬("URI" = "CAA") := by
    refine ⟨?_, ?_, ?_, ?_, ?_, ?_⟩ <;> decide
  obtain ⟨h1, h2, h3, h4, h5, h6⟩ := hne
  simp only [getRecordData, if_neg h1, if_neg h2, if_neg h3, if_neg h4, if_neg h5,
    if_neg h6, if_pos rfl, if_true] at h
  rcases hs : pySplitMax2 s with _ | ⟨a, _ | ⟨b, _ | ⟨c, _ | ⟨x, rest⟩⟩⟩⟩ <;> rw [hs] at h
  · simp at h
  · simp at h
  · simp at h
  · have h' : (do
        let priority ← pyIntExn a
        let weight ← pyIntExn b
        Except.ok (some [("uriPriority", PyVal.int priority), ("uriWeight", PyVal.int weight),
          ("uri", PyVal.str (stripQuotes c))]) : Except PyExn (Option RData))
        = Except.ok (some d) := h
    rcases hinta : pyIntExn a with e | p
    · rw [hinta, exceptBind_error] at h'
      simp at h'
    · rw [hinta, exceptBind_ok] at h'
      rcases hintb : pyIntExn b with e | w
      · rw [hintb, exceptBind_error] at h'
        simp at h'
      · rw [hintb, exceptBind_ok] at h'
        simp only [Except.ok.injEq, Option.some.injEq] at h'
        exact ⟨a, b, c, p, w, rfl, hinta, hintb, h'.symm⟩
  · simp at h

theorem sshfp_inversion {s : String} {d : RData}
    (h : getRecordData "SSHFP" s = .ok (some d)) :
    ∃ (a b c : String) (alg ft : Int), pySplitMax2 s = [a, b, c] ∧
      pyIntExn a = .ok alg ∧ pyIntExn b = .ok ft ∧
      d = [("algorithm", .int alg), ("fingerprintType", .int ft),
           ("fingerprint", .str c)] := by
  have hne : ¬("SSHFP" = "A") ∧ ¬("SSHFP" = "AAAA") ∧ ¬("SSHFP" = "CNAME") ∧
      ¬("SSHFP" = "TXT") ∧ ¬("SSHFP" = "ANAME") ∧ ¬("SSHFP" = "CAA") ∧
      ¬("SSHFP" = "URI") := by
    refine ⟨?_, ?_, ?_, ?_, ?_, ?_, ?_⟩ <;> decide
  obtain ⟨h1, h2, h3, h4, h5, h6, h7⟩ := hne
  simp only [getRecordData, if_neg h1, if_neg h2, if_neg h3, if_neg h4, if_neg h5,
    if_neg h6, if_neg h7, if_pos rfl, if_true] at h
  rcases hs : pySplitMax2 s with _ | ⟨a, _ | ⟨b, _ | ⟨c, _ | ⟨x, rest⟩⟩⟩⟩ <;> rw [hs] at h
  · simp at h
  · simp at h
  · simp at h
  · have h' : (do
        let algorithm ← pyIntExn a
        let fpType ← pyIntExn b
        Except.ok (some [("algorithm", PyVal.int algorithm),
          ("fingerprintType", PyVal.int fpType),
          ("fingerprint", PyVal.str c)]) : Except PyExn (Option RData))
        = Except.ok (some d) := h
    rcases hinta : pyIntExn a with e | alg
    · rw [hinta, exceptBind_error] at h'
      simp at h'
    · rw [hinta, exceptBind_ok] at h'
      rcases hintb : pyIntExn b with e | ft
      · rw [hintb, exceptBind_error] at h'
        simp at h'
      · rw [hintb, exceptBind_ok] at h'
        simp only [Except.ok.injEq, Option.some.injEq] at h'
        exact ⟨a, b, c, alg, ft, rfl, hinta, hintb, h'.symm⟩
  · simp at h

theorem svcb_inversion {rt : String} (hrt : rt = "SVCB" ∨ rt = "HTTPS") {s : String}
    {d : RData} (h : getRecordData rt s = .ok (some d)) :
    ∃ (a b : String) (p : Int), pyIntExn a = .ok p ∧
      ((pySplitMax2 s = [a, b] ∧
        d = [("svcPriority", .int p), ("svcTargetName", .str b), ("svcParams", .str "")]) ∨
       (∃ c : String, pySplitMax2 s = [a, b, c] ∧
        d = [("svcPriority", .int p), ("svcTargetName", .str b),
             ("svcParams", .str c)])) := by
  have hne : ¬(rt = "A") ∧ ¬(rt = "AAAA") ∧ ¬(rt = "CNAME") ∧ ¬(rt = "TXT") ∧
      ¬(rt = "ANAME") ∧ ¬(rt = "CAA") ∧ ¬(rt = "URI") ∧ ¬(rt = "SSHFP") := by
    rcases hrt with rfl | rfl <;> refine ⟨?_, ?_, ?_, ?_, ?_, ?_, ?_, ?_⟩ <;> decide
  obtain ⟨h1, h2, h3, h4, h5, h6, h7, h8⟩ := hne
  simp only [getRecordData, if_neg h1, if_neg h2, if_neg h3, if_neg h4, if_neg h5,
    if_neg h6, if_neg h7, if_neg h8, if_pos hrt] at h
  rcases hs : pySplitMax2 s with _ | ⟨a, _ | ⟨b, _ | ⟨c, _ | ⟨x, rest⟩⟩⟩⟩ <;> rw [hs] at h
  · simp at h
  · simp at h
  · have h' : (do
        let priority ← pyIntExn a
        Except.ok (some [("svcPriority", PyVal.int priority), ("svcTargetName", PyVal.str b),
          ("svcParams", PyVal.str "")]) : Except PyExn (Option RData))
        = Except.ok (some d) := h
    rcases hinta : pyIntExn a with e | p
    · rw [hinta, exceptBind_error] at h'
      simp at h'
    · rw [hinta, exceptBind_ok] at h'
      simp only [Except.ok.injEq, Option.some.injEq] at h'
      exact ⟨a, b, p, hinta, Or.inl ⟨rfl, h'.symm⟩⟩
  · have h' : (do
        let priority ← pyIntExn a
        Except.ok (some [("svcPriority", PyVal.int priority), ("svcTargetName", PyVal.str b),
          ("svcParams", PyVal.str c)]) : Except PyExn (Option RData))
        = Except.ok (some d) := h
    rcases hinta : pyIntExn a with e | p
    · rw [hinta, exceptBind_error] at h'
      simp at h'
    · rw [hinta, exceptBind_ok] at h'
      simp only [Except.ok.injEq, Option.some.injEq] at h'
      exact ⟨a, b, p, hinta, Or.inr ⟨c, rfl, h'.symm⟩⟩
  · simp at h

/-- Stripping is the identity except for removing one trailing `w`. -/
theorem pyStripChars_trailing {p : Char → Bool} {l : List Char} {w : Char} (hw : p w = true)
    (hh : ∀ c, l.head? = some c → p c = false)
    (hl : ∀ c, l.getLast? = some c → p c = false) :
    pyStripChars p (l ++ [w]) = l := by
  unfold pyStripChars
  rcases l with _ | ⟨a, t⟩
  · simp [List.dropWhile, hw]
  · have ha : p a = false := hh a rfl
    have h1 : ((a :: t) ++ [w]).dropWhile p = (a :: t) ++ [w] := by
      simp [List.dropWhile, ha]
    rw [h1]
    have h2 : ((a :: t) ++ [w]).reverse = w :: (a :: t).reverse := by simp
    rw [h2]
    have h3 : (w :: (a :: t).reverse).dropWhile p = (a :: t).reverse.dropWhile p := by
      simp [List.dropWhile, hw]
    rw [h3]
    rcases hlast : (a :: t).getLast? with _ | z
    · simp at hlast
    · have hz : p z = false := hl z hlast
      have hzr : (a :: t).reverse.head? = some z := by
        rw [List.head?_reverse]; exact hlast
      rcases hrev : (a :: t).reverse with _ | ⟨b, bs⟩
      · simp at hrev
      · rw [hrev] at hzr
        simp only [List.head?_cons, Option.some.injEq] at hzr
        have h4 : (b :: bs).dropWhile p = b :: bs := by
          simp [List.dropWhile, hzr ▸ hz]
        calc ((b :: bs).dropWhile p).reverse
            = (b :: bs).reverse := by rw [h4]
          _ = a :: t := by rw [← hrev, List.reverse_reverse]

/-- Decode-stability for SSHFP. -/
theorem sshfp_stable {s : String} {d : RData}
    (h : getRecordData "SSHFP" s = .ok (some d)) :
    ∃ e : String, extractTargets "SSHFP" d = [e] ∧
      getRecordData "SSHFP" e = .ok (some d) := by
  obtain ⟨a, b, c, alg, ft, hs, hinta, hintb, rfl⟩ := sshfp_inversion h
  have hcore := pySplitMax2_eq3 hs
  obtain ⟨hta, htb, hcs, hsuf⟩ := splitCore_shape3 hcore
  have hpa : pyInt? a = some alg := by
    revert hinta; unfold pyIntExn
    rcases pyInt? a with _ | v <;> simp
  have hpb : pyInt? b = some ft := by
    revert hintb; unfold pyIntExn
    rcases pyInt? b with _ | v <;> simp
  refine ⟨intToStr alg ++ " " ++ intToStr ft ++ " " ++ c, ?_, ?_⟩
  · simp [extractTargets, rGet, pyFormat]
  · have he : (intToStr alg ++ " " ++ intToStr ft ++ " " ++ c : String)
        = ⟨(intToStr alg).data ++ (' ' :: ((intToStr ft).data ++ (' ' :: c.data)))⟩ := by
      have hdata : (intToStr alg ++ " " ++ intToStr ft ++ " " ++ c : String).data
          = (intToStr alg).data ++ (' ' :: ((intToStr ft).data ++ (' ' :: c.data))) := by
        show ((((intToStr alg).data ++ [' ']) ++ (intToStr ft).data) ++ [' ']) ++ c.data
          = (intToStr alg).data ++ (' ' :: ((intToStr ft).data ++ (' ' :: c.data)))
        simp [List.append_assoc]
      calc (intToStr alg ++ " " ++ intToStr ft ++ " " ++ c : String)
          = ⟨(intToStr alg ++ " " ++ intToStr ft ++ " " ++ c : String).data⟩ := rfl
        _ = _ := congrArg String.mk hdata
    rw [he]
    simpa using getRecordData_sshfp_canonical alg ft c.data hcs

/-- The URI branch is not decode-stable: the encoder reads `priority` and
`weight`, which the decoder does not emit, so both collapse to `0` while
the `uri` field survives. -/
theorem uri_unstable {s : String} {d : RData} (h : getRecordData "URI" s = .ok (some d)) :
    ∃ (p w : Int) (u : String),
      d = [("uriPriority", .int p), ("uriWeight", .int w), ("uri", .str u)] ∧
      extractTargets "URI" d = ["0 0 \"" ++ u ++ "\""] ∧
      getRecordData "URI" ("0 0 \"" ++ u ++ "\"")
        = .ok (some [("uriPriority", .int 0), ("uriWeight", .int 0),
                     ("uri", .str u)]) := by
  obtain ⟨a, b, c, p, w, hs, hinta, hintb, rfl⟩ := uri_inversion h
  refine ⟨p, w, stripQuotes c, rfl, ?_, ?_⟩
  · simp [extractTargets, rGet, pyFormat]
    rfl
  · have he : ("0 0 \"" ++ stripQuotes c ++ "\"" : String)
        = ⟨(intToStr 0).data ++ (' ' :: ((intToStr 0).data ++ (' ' ::
            ('"' :: ((stripQuotes c).data ++ ['"'])))))⟩ := by
      have hzero : (intToStr 0).data = ['0'] := by decide
      have hdata : ("0 0 \"" ++ stripQuotes c ++ "\"" : String).data
          = (intToStr 0).data ++ (' ' :: ((intToStr 0).data ++ (' ' ::
              ('"' :: ((stripQuotes c).data ++ ['"']))))) := by
        rw [hzero]
        show (['0', ' ', '0', ' ', '"'] ++ (stripQuotes c).data) ++ ['"']
          = ['0'] ++ (' ' :: (['0'] ++ (' ' :: ('"' :: ((stripQuotes c).data ++ ['"'])))))
        simp [List.append_assoc]
      calc ("0 0 \"" ++ stripQuotes c ++ "\"" : String)
          = ⟨("0 0 \"" ++ stripQuotes c ++ "\"" : String).data⟩ := rfl
        _ = _ := congrArg String.mk hdata
    rw [he]
    simpa using getRecordData_uri_canonical 0 0 (stripQuotes c).data
      (fun x hx => stripQuotes_head_free x hx)
      (fun x hx => stripQuotes_last_free x hx)

/-- Decode-stability for SVCB/HTTPS targets without trailing whitespace. -/
theorem svcb_stable {rt : String} (hrt : rt = "SVCB" ∨ rt = "HTTPS") {s : String}
    {d : RData} (h : getRecordData rt s = .ok (some d))
    (hlast : ∀ x, s.data.getLast? = some x → pyIsSpace x = false) :
    ∃ e : String, extractTargets rt d = [e] ∧ getRecordData rt e = .ok (some d) := by
  obtain ⟨a, b, p, hinta, hcase⟩ := svcb_inversion hrt h
  have hextif : ¬(rt = "A" ∨ rt = "AAAA") ∧ ¬(rt = "CNAME") ∧ ¬(rt = "TXT") ∧
      ¬(rt = "ANAME") ∧ ¬(rt = "CAA") ∧ ¬(rt = "URI") ∧ ¬(rt = "SSHFP") := by
    rcases hrt with rfl | rfl <;> refine ⟨?_, ?_, ?_, ?_, ?_, ?_, ?_⟩ <;> decide
  obtain ⟨g1, g2, g3, g4, g5, g6, g7⟩ := hextif
  rcases hcase with ⟨hs, rfl⟩ | ⟨c, hs, rfl⟩
  · -- two chunks: params is empty, the encoder strips the trailing space
    have hcore := pySplitMax2_eq2 hs
    obtain ⟨hta, htb⟩ := splitCore_shape2 hcore
    obtain ⟨bh, bt, hbd⟩ := List.exists_cons_of_ne_nil htb.1
    refine ⟨⟨(intToStr p).data ++ (' ' :: b.data)⟩, ?_, ?_⟩
    · have hext : extractTargets rt [("svcPriority", PyVal.int p),
          ("svcTargetName", PyVal.str b), ("svcParams", PyVal.str "")]
          = [pyStrip (intToStr p ++ " " ++ b ++ " " ++ "")] := by
        simp only [extractTargets, if_neg g1, if_neg g2, if_neg g3, if_neg g4, if_neg g5,
          if_neg g6, if_neg g7, if_pos hrt]
        rfl
      rw [hext]
      unfold pyStrip
      congr 1
      have hshape : (intToStr p ++ " " ++ b ++ " " ++ "" : String).data
          = ((intToStr p).data ++ (' ' :: b.data)) ++ [' '] := by
        show ((((intToStr p).data ++ [' ']) ++ b.data) ++ [' ']) ++ []
          = ((intToStr p).data ++ (' ' :: b.data)) ++ [' ']
        simp [List.append_assoc]
      rw [hshape]
      refine congrArg String.mk ?_
      apply pyStripChars_trailing (by decide)
      · intro x hx
        obtain ⟨ph, pt, hpd⟩ := List.exists_cons_of_ne_nil (intToStr_isToken p).1
        rw [hpd] at hx
        simp only [List.cons_append, List.head?_cons, Option.some.injEq] at hx
        exact hx ▸ (intToStr_isToken p).2 ph (by rw [hpd]; exact List.mem_cons_self ph pt)
      · intro x hx
        rw [List.getLast?_append_of_ne_nil _ (by simp : ' ' :: b.data ≠ [])] at hx
        have : x ∈ ' ' :: b.data := getLast?_mem_list hx
        rcases List.mem_cons.mp this with hm | hm
        · -- the last element of a nonempty token list is in the token
          exfalso
          rw [hbd] at hx
          have hx2 : (bh :: bt).getLast? = some x := by
            have := hx
            rw [show (' ' :: bh :: bt : List Char).getLast? = (bh :: bt).getLast? from
              List.getLast?_cons_cons ..] at this
            exact this
          have : x ∈ bh :: bt := getLast?_mem_list hx2
          have hws := htb.2 x (by rw [hbd]; exact this)
          rw [hm] at hws
          simp [pyIsSpace] at hws
        · exact htb.2 x hm
    · exact getRecordData_svcb_two_canonical rt hrt p b.data htb
  · -- three chunks: the params chunk survives verbatim
    have hcore := pySplitMax2_eq3 hs
    obtain ⟨hta, htb, ⟨ch, cs, hcd, hch⟩, hsuf⟩ := splitCore_shape3 hcore
    have hcne : c.data ≠ [] := by rw [hcd]; simp
    have hclast : ∀ x, c.data.getLast? = some x → pyIsSpace x = false := by
      intro x hx
      obtain ⟨t, ht⟩ := hsuf
      apply hlast
      rw [← ht, List.getLast?_append_of_ne_nil _ hcne]
      exact hx
    refine ⟨⟨(intToStr p).data ++ (' ' :: (b.data ++ (' ' :: c.data)))⟩, ?_, ?_⟩
    · have hext : extractTargets rt [("svcPriority", PyVal.int p),
          ("svcTargetName", PyVal.str b), ("svcParams", PyVal.str c)]
          = [pyStrip (intToStr p ++ " " ++ b ++ " " ++ c)] := by
        simp only [extractTargets, if_neg g1, if_neg g2, if_neg g3, if_neg g4, if_neg g5,
          if_neg g6, if_neg g7, if_pos hrt]
        rfl
      rw [hext]
      unfold pyStrip
      congr 1
      have hshape : (intToStr p ++ " " ++ b ++ " " ++ c : String).data
          = (intToStr p).data ++ (' ' :: (b.data ++ (' ' :: c.data))) := by
        show ((((intToStr p).data ++ [' ']) ++ b.data) ++ [' ']) ++ c.data
          = (intToStr p).data ++ (' ' :: (b.data ++ (' ' :: c.data)))
        simp [List.append_assoc]
      rw [hshape]
      refine congrArg String.mk ?_
      apply pyStripChars_eq_self
      · intro x hx
        obtain ⟨ph, pt, hpd⟩ := List.exists_cons_of_ne_nil (intToStr_isToken p).1
        rw [hpd] at hx
        simp only [List.cons_append, List.head?_cons, Option.some.injEq] at hx
        exact hx ▸ (intToStr_isToken p).2 ph (by rw [hpd]; exact List.mem_cons_self ph pt)
      · intro x hx
        apply hclast
        rw [show (intToStr p).data ++ (' ' :: (b.data ++ (' ' :: c.data)))
            = ((intToStr p).data ++ (' ' :: (b.data ++ [' ']))) ++ c.data by
          simp [List.append_assoc]] at hx
        rw [List.getLast?_append_of_ne_nil _ hcne] at hx
        exact hx
    · exact getRecordData_svcb_three_canonical rt hrt p b.data c.data htb ⟨ch, cs, hcd, hch⟩

/-- A/AAAA/CNAME/TXT/ANAME round-trip to the identical target string. -/
theorem simple_roundtrip {rt : String}
    (hrt : rt = "A" ∨ rt = "AAAA" ∨ rt = "CNAME" ∨ rt = "TXT" ∨ rt = "ANAME")
    {s : String} {d : RData} (h : getRecordData rt s = .ok (some d)) :
    extractTargets rt d = [s] := by
  rcases hrt with rfl | rfl | rfl | rfl | rfl
  · simp only [getRecordData, if_pos rfl, if_true] at h
    rcases hip : isIPv4 s with _ | _ <;> rw [hip] at h
    · simp at h
    · simp only [if_true, Except.ok.injEq, Option.some.injEq] at h
      rw [← h]
      rfl
  · have hne : ¬("AAAA" = "A") := by decide
    simp only [getRecordData, if_neg hne, if_pos rfl, if_true] at h
    rcases hip : isIPv6 s with _ | _ <;> rw [hip] at h
    · simp at h
    · simp only [if_true, Except.ok.injEq, Option.some.injEq] at h
      rw [← h]
      rfl
  · have hne : ¬("CNAME" = "A") ∧ ¬("CNAME" = "AAAA") := by exact ⟨by decide, by decide⟩
    simp only [getRecordData, if_neg hne.1, if_neg hne.2, if_pos rfl, if_true,
      Except.ok.injEq, Option.some.injEq] at h
    rw [← h]
    rfl
  · have hne : ¬("TXT" = "A") ∧ ¬("TXT" = "AAAA") ∧ ¬("TXT" = "CNAME") := by
      exact ⟨by decide, by decide, by decide⟩
    simp only [getRecordData, if_neg hne.1, if_neg hne.2.1, if_neg hne.2.2, if_pos rfl,
      if_true, Except.ok.injEq, Option.some.injEq] at h
    rw [← h]
    rfl
  · have hne : ¬("ANAME" = "A") ∧ ¬("ANAME" = "AAAA") ∧ ¬("ANAME" = "CNAME") ∧
        ¬("ANAME" = "TXT") := by exact ⟨by decide, by decide, by decide, by decide⟩
    simp only [getRecordData, if_neg hne.1, if_neg hne.2.1, if_neg hne.2.2.1,
      if_neg hne.2.2.2, if_pos rfl, if_true, Except.ok.injEq, Option.some.injEq] at h
    rw [← h]
    rfl

/-! ## Claim theorems -/

/-- C1: the spec says `_get_record_data` is total — it never raises and
returns `None` for malformed input.  The code violates this: for CAA, URI,
SSHFP and SVCB/HTTPS targets whose leading numeric tokens do not parse as
ints, the bare `int(...)` calls raise `ValueError` (uncaught), contradicting
the function's own docstring ("Record data dict or None if
unsupported/invalid") and the skip-on-invalid policy the A/AAAA branches
and `apply_record`'s tests implement.  This theorem evaluates the embedded
decoder at the failing inputs. -/
theorem C1_decode_raises_on_nonint_tokens :
    getRecordData "CAA" "x issue \"v\""
      = .error (.valueError "invalid literal for int() with base 10: x")
  ∧ getRecordData "URI" "x 1 \"https://e\""
      = .error (.valueError "invalid literal for int() with base 10: x")
  ∧ getRecordData "SSHFP" "x 1 abc123"
      = .error (.valueError "invalid literal for int() with base 10: x")
  ∧ getRecordData "SVCB" "x host.example"
      = .error (.valueError "invalid literal for int() with base 10: x")
  ∧ getRecordData "HTTPS" "x . alpn=h3"
      = .error (.valueError "invalid literal for int() with base 10: x") :=
  ⟨rfl, rfl, rfl, rfl, rfl⟩

/-- C2 counterexample: the URI round-trip fails as claimed.  Decoding the
well-formed URI target `10 1 "https://example.com"` yields the field set
`{uriPriority, uriWeight, uri}`, but the encoder's field lookups read
`priority` and `weight`, which are absent, so re-encoding produces
`0 0 "https://example.com"` — not a semantically equivalent target — and
the decoded field set does not round-trip through the encoder's lookups. -/
theorem C2_uri_roundtrip_counterexample :
    getRecordData "URI" "10 1 \"https://example.com\""
      = .ok (some [("uriPriority", .int 10), ("uriWeight", .int 1),
                   ("uri", .str "https://example.com")])
  ∧ extractTargets "URI" [("uriPriority", .int 10), ("uriWeight", .int 1),
      ("uri", .str "https://example.com")]
      = ["0 0 \"https://example.com\""]
  ∧ rGet [("uriPriority", .int 10), ("uriWeight", .int 1),
      ("uri", .str "https://example.com")] "priority" (.int 0) = .int 0
  ∧ ("0 0 \"https://example.com\"" : String) ≠ "10 1 \"https://example.com\""
  ∧ getRecordData "URI" "0 0 \"https://example.com\""
      ≠ .ok (some [("uriPriority", .int 10), ("uriWeight", .int 1),
                   ("uri", .str "https://example.com")]) := by
  refine ⟨rfl, rfl, rfl, by decide, ?_⟩
  intro h
  have : (some [("uriPriority", PyVal.int 0), ("uriWeight", PyVal.int 0),
      ("uri", PyVal.str "https://example.com")] : Option RData)
      = some [("uriPriority", PyVal.int 10), ("uriWeight", PyVal.int 1),
      ("uri", PyVal.str "https://example.com")] := by
    have h0 : getRecordData "URI" "0 0 \"https://example.com\""
        = .ok (some [("uriPriority", PyVal.int 0), ("uriWeight", PyVal.int 0),
                     ("uri", PyVal.str "https://example.com")]) := rfl
    rw [h0] at h
    exact Except.ok.inj h
  simp at this

/-- C2 (amended): encode∘decode round-trips up to decode-equality for every
supported type except URI.  (1) The claim's CAA instance round-trips to the
identical string; (2) A/AAAA/CNAME/TXT/ANAME reproduce the identical target;
(3) CAA and (4) SSHFP re-decode to the same record data; (5) SVCB/HTTPS
re-decode to the same record data provided the target has no trailing
whitespace; (6) for URI only the `uri` field survives — the encoder reads
`priority`/`weight`, which decode does not emit, so both become `0`. -/
theorem C2_roundtrip_amended :
    (getRecordData "CAA" "0 issue \"letsencrypt.org\""
        = .ok (some [("flags", .int 0), ("tag", .str "issue"),
                     ("value", .str "letsencrypt.org")])
      ∧ extractTargets "CAA" [("flags", .int 0), ("tag", .str "issue"),
          ("value", .str "letsencrypt.org")] = ["0 issue \"letsencrypt.org\""])
  ∧ (∀ rt, (rt = "A" ∨ rt = "AAAA" ∨ rt = "CNAME" ∨ rt = "TXT" ∨ rt = "ANAME") →
      ∀ s d, getRecordData rt s = .ok (some d) → extractTargets rt d = [s])
  ∧ (∀ s d, getRecordData "CAA" s = .ok (some d) →
      ∃ e, extractTargets "CAA" d = [e] ∧ getRecordData "CAA" e = .ok (some d))
  ∧ (∀ s d, getRecordData "SSHFP" s = .ok (some d) →
      ∃ e, extractTargets "SSHFP" d = [e] ∧ getRecordData "SSHFP" e = .ok (some d))
  ∧ (∀ rt, (rt = "SVCB" ∨ rt = "HTTPS") → ∀ s d, getRecordData rt s = .ok (some d) →
      (∀ x, s.data.getLast? = some x → pyIsSpace x = false) →
      ∃ e, extractTargets rt d = [e] ∧ getRecordData rt e = .ok (some d))
  ∧ (∀ s d, getRecordData "URI" s = .ok (some d) →
      ∃ (p w : Int) (u : String),
        d = [("uriPriority", .int p), ("uriWeight", .int w), ("uri", .str u)] ∧
        extractTargets "URI" d = ["0 0 \"" ++ u ++ "\""] ∧
        getRecordData "URI" ("0 0 \"" ++ u ++ "\"")
          = .ok (some [("uriPriority", .int 0), ("uriWeight", .int 0),
                       ("uri", .str u)])) :=
  ⟨⟨rfl, rfl⟩,
   fun _ hrt _ _ h => simple_roundtrip hrt h,
   fun _ _ h => caa_stable h,
   fun _ _ h => sshfp_stable h,
   fun _ hrt _ _ h hlast => svcb_stable hrt h hlast,
   fun _ _ h => uri_unstable h⟩

/-- C2 witness: the amended round-trip theorem applied at concrete inputs,
one per universally-quantified part. -/
theorem C2_roundtrip_amended_witness :
    extractTargets "TXT" [("text", PyVal.str "v=spf1")] = ["v=spf1"]
  ∧ (∃ e, extractTargets "CAA" [("flags", .int 0), ("tag", .str "issue"),
      ("value", .str "letsencrypt.org")] = [e]
      ∧ getRecordData "CAA" e = .ok (some [("flags", .int 0), ("tag", .str "issue"),
          ("value", .str "letsencrypt.org")]))
  ∧ (∃ e, extractTargets "SSHFP" [("algorithm", .int 1), ("fingerprintType", .int 1),
      ("fingerprint", .str "abc123")] = [e]
      ∧ getRecordData "SSHFP" e = .ok (some [("algorithm", .int 1),
          ("fingerprintType", .int 1), ("fingerprint", .str "abc123")]))
  ∧ (∃ e, extractTargets "SVCB" [("svcPriority", .int 1),
      ("svcTargetName", .str "svc.example.com"), ("svcParams", .str "alpn=h2")] = [e]
      ∧ getRecordData "SVCB" e = .ok (some [("svcPriority", .int 1),
          ("svcTargetName", .str "svc.example.com"), ("svcParams", .str "alpn=h2")]))
  ∧ (∃ (p w : Int) (u : String),
      ([("uriPriority", PyVal.int 10), ("uriWeight", PyVal.int 1),
        ("uri", PyVal.str "https://example.com")] : RData)
        = [("uriPriority", .int p), ("uriWeight", .int w), ("uri", .str u)] ∧
      extractTargets "URI" [("uriPriority", PyVal.int 10), ("uriWeight", PyVal.int 1),
        ("uri", PyVal.str "https://example.com")] = ["0 0 \"" ++ u ++ "\""] ∧
      getRecordData "URI" ("0 0 \"" ++ u ++ "\"")
        = .ok (some [("uriPriority", .int 0), ("uriWeight", .int 0), ("uri", .str u)])) :=
  ⟨C2_roundtrip_amended.2.1 "TXT" (by simp) "v=spf1" [("text", PyVal.str "v=spf1")] rfl,
   C2_roundtrip_amended.2.2.1 "0 issue \"letsencrypt.org\"" _ rfl,
   C2_roundtrip_amended.2.2.2.1 "1 1 abc123" _ rfl,
   C2_roundtrip_amended.2.2.2.2.1 "SVCB" (by simp) "1 svc.example.com alpn=h2" _ rfl
     (by decide),
   C2_roundtrip_amended.2.2.2.2.2 "10 1 \"https://example.com\"" _ rfl⟩

/-- C3: applying a create batch with one A endpoint whose targets are
`["192.0.2.1", "not-an-ip"]` issues exactly one remote add-record call —
for the valid address only, with record data `{ipAddress: "192.0.2.1"}` and
the endpoint's TTL — skips the invalid target without aborting, and
returns HTTP 204. -/
theorem C3_apply_create_skips_invalid_target :
    applyRecord ⟨true, true⟩ ⟨fun _ => .ok (), fun _ => .ok ()⟩
      { create := some [⟨"test.example.com", "A", ["192.0.2.1", "not-an-ip"], some 3600⟩] }
    = ⟨.ok 204, [],
       [⟨"test.example.com", "A", [("ipAddress", .str "192.0.2.1")], some 3600⟩]⟩ :=
  rfl

/-- C9 (spec-modelled): while the published status has `ready = false`,
GET `/records`, POST `/adjustendpoints` and POST `/records` all surface the
readiness error as HTTP 503 — `ensure_ready` raises
`RuntimeError("Service not ready yet. Try again later.")`, and the
exception middleware (absent from `src/`, modelled from the spec and its
unit tests) maps any error whose message contains "service not ready",
case-insensitively, to 503. -/
theorem C9_not_ready_responds_503 (st : HState) (h : st.isReady = false) :
    (∀ fetch, routeStatus 200 (getRecordsHandler st fetch) = 503)
  ∧ (∀ eps, routeStatus 200 (adjustEndpointsHandler st eps) = 503)
  ∧ (∀ env changes, routeStatus 204 (applyRecord st env changes).outcome = 503) := by
  have hready : ensureReady st = .error (.runtimeError "Service not ready yet. Try again later.") := by
    unfold ensureReady
    rw [h]
    rfl
  have hmid : ∀ (okStatus : Nat) {α : Type},
      routeStatus okStatus (Except.error (.runtimeError
        "Service not ready yet. Try again later.") : Except PyExn α) = 503 := by
    intro okStatus α
    rfl
  refine ⟨?_, ?_, ?_⟩
  · intro fetch
    have : getRecordsHandler st fetch
        = .error (.runtimeError "Service not ready yet. Try again later.") := by
      unfold getRecordsHandler
      rw [hready]
      rfl
    rw [this, hmid]
  · intro eps
    have : adjustEndpointsHandler st eps
        = .error (.runtimeError "Service not ready yet. Try again later.") := by
      unfold adjustEndpointsHandler
      rw [hready]
      rfl
    rw [this, hmid]
  · intro env changes
    have hwr : ensureWritable st
        = .error (.runtimeError "Service not ready yet. Try again later.") := by
      unfold ensureWritable
      rw [hready]
      rfl
    have : (applyRecord st env changes).outcome
        = .error (.runtimeError "Service not ready yet. Try again later.") := by
      unfold applyRecord
      rw [hwr]
    rw [this, hmid]

/-- C9 witness: the theorem applied to the not-ready state. -/
theorem C9_not_ready_responds_503_witness :
    routeStatus 200 (getRecordsHandler ⟨false, false⟩ (.ok [])) = 503 :=
  (C9_not_ready_responds_503 ⟨false, false⟩ rfl).1 (.ok [])

/-- C10: `AppState.__init__` can never return a state object: for every
`Config`, it reads `config.technitium_ca_bundle_file` — an attribute
`Config` does not define (it defines `technitium_ca_bundle`) — so the
constructor raises `AttributeError` before anything else can run; the
compression attributes and the keyword arguments it would pass to
`TechnitiumClient.__init__` are equally undefined. -/
theorem C10_appstate_init_always_raises :
    (∀ c : Config, appStateInit c
      = .error (.attributeError
          "'Config' object has no attribute 'technitium_ca_bundle_file'"))
  ∧ "technitium_ca_bundle_file" ∉ configAttrNames
  ∧ "technitium_enable_request_compression" ∉ configAttrNames
  ∧ "technitium_compression_threshold_bytes" ∉ configAttrNames
  ∧ "technitium_ca_bundle" ∈ configAttrNames
  ∧ "enable_request_compression" ∉ technitiumClientInitParams
  ∧ "compression_threshold_bytes" ∉ technitiumClientInitParams :=
  ⟨fun _ => rfl, by decide, by decide, by decide, by decide, by decide, by decide⟩

/-- C5 counterexample: when the endpoint advertises an *empty*
`availableCatalogZoneNames` list and the zone is not yet enrolled, the
claim demands no enrollment call and an unchanged (empty) membership — but
`ensure_catalog_membership` skips the availability check for an empty set
(`if available and ...`), issues the enrollment call, and returns the
server-reported membership. -/
theorem C5_empty_catalog_list_counterexample :
    ensureCatalogMembership
      ⟨.ok (), .ok ⟨"member.zone", false, some "cat2", []⟩⟩
      ⟨"member.zone", false, none, []⟩ "cat"
    = (.ok (some "cat2"), 1) :=
  rfl

/-- C5 (amended): whenever the endpoint's advertised catalog list
*normalizes to a non-empty set* that does not contain the desired catalog
name, `ensure_catalog_membership` issues no enrollment call and returns the
zone's pre-existing normalized membership unchanged; when the advertised
list is empty the availability check is skipped and enrollment proceeds. -/
theorem C5_catalog_absent_no_enrollment (env : CatalogEnv) (options : ZoneOptions)
    (catalogZone : String)
    (hne : availableNormalized options ≠ [])
    (habs : catalogZone ∉ availableNormalized options) :
    ensureCatalogMembership env options catalogZone
      = (.ok (normalizeZoneName options.catalogZoneName), 0) := by
  unfold ensureCatalogMembership
  by_cases hcur : normalizeZoneName options.catalogZoneName = some catalogZone
  · rw [if_pos hcur, hcur]
  · rw [if_neg hcur, if_pos ⟨hne, habs⟩]

/-- C5 witness: the amended theorem at a concrete zone-options value whose
advertised list lacks the desired catalog. -/
theorem C5_catalog_absent_no_enrollment_witness :
    ensureCatalogMembership
      ⟨.ok (), .ok ⟨"member.zone", false, none, []⟩⟩
      ⟨"member.zone", false, some "old.cat", ["Other.Example.com"]⟩ "cat"
      = (.ok (some "old.cat"), 0) :=
  C5_catalog_absent_no_enrollment
    ⟨.ok (), .ok ⟨"member.zone", false, none, []⟩⟩
    ⟨"member.zone", false, some "old.cat", ["Other.Example.com"]⟩ "cat"
    (by decide) (by decide)

theorem setActiveEndpoint_ok (baseUrl endpoint newBase : String)
    (h : setActiveEndpoint baseUrl endpoint = .ok newBase) : newBase = baseUrl := by
  unfold setActiveEndpoint at h
  by_cases hc : baseUrl = rstripSlash endpoint
  · rw [if_pos hc] at h
    cases h
    rfl
  · rw [if_neg hc] at h
    have h' : (Except.error (PyExn.attributeError
        "'Config' object has no attribute 'technitium_ca_bundle_file'")
        : Except PyExn String) = .ok newBase := h
    exact Except.noConfusion h'

theorem setupLoop_step_fail (env : SetupEnv) (baseUrl : String)
    (attempted : List String) (e : String) (rest : List String)
    (hf : attemptFails env baseUrl e = true) :
    setupLoop env baseUrl attempted (e :: rest)
      = setupLoop env baseUrl (attempted ++ [e]) rest := by
  unfold attemptFails at hf
  conv_lhs => unfold setupLoop
  rcases hset : setActiveEndpoint baseUrl e with eset | newBase
  · rfl
  · have hbase : newBase = baseUrl := setActiveEndpoint_ok baseUrl e newBase hset
    subst hbase
    rcases hlog : env.login e with eerr | u
    · rfl
    · cases u
      rcases hzone : env.zoneReady e with ezone | r
      · rfl
      · rw [hset, hlog, hzone] at hf
        exact Bool.noConfusion (show false = true from hf)

theorem setupLoop_all_fail (env : SetupEnv) (baseUrl : String) :
    ∀ (eps : List String) (attempted : List String),
    (∀ ep ∈ eps, attemptFails env baseUrl ep = true) →
    setupLoop env baseUrl attempted eps = ⟨unreadyStatus, attempted ++ eps, none⟩ := by
  intro eps
  induction eps with
  | nil => intro attempted _; simp [setupLoop]
  | cons e rest ih =>
      intro attempted hfail
      have he : attemptFails env baseUrl e = true := hfail e (List.mem_cons_self e rest)
      have hrest : ∀ ep ∈ rest, attemptFails env baseUrl ep = true :=
        fun ep hep => hfail ep (List.mem_cons_of_mem e hep)
      rw [setupLoop_step_fail env baseUrl attempted e rest he,
          ih (attempted ++ [e]) hrest]
      have harr : (attempted ++ [e]) ++ rest = attempted ++ e :: rest := by
        simp
      exact congrArg (fun l => (⟨unreadyStatus, l, none⟩ : SetupResult)) harr

/-- C6 counterexample: in the claim's very scenario — endpoints ["A", "B"],
login against A raising, B succeeding end to end with a writable primary
zone — the staged `setup_technitium_connection` raises `AttributeError`
from the `technitium_ca_bundle_file` read in its opening debug log
(`main.py` line 192) instead of attempting the endpoints in order and
publishing `ready = true` sourced from B; and with an environment where
every endpoint fails, it raises the same way instead of publishing the
unready status and returning. -/
theorem C6_entry_attribute_error_counterexample :
    setupTechnitiumConnection
      ⟨fun ep => if ep = "B" then .ok ()
          else .error (.technitiumError { message := "Request error: refused" }),
       fun _ => .ok ⟨false, true, "primary", none⟩⟩
      "A" ["A", "B"]
      = .error (.attributeError "'Config' object has no attribute 'technitium_ca_bundle_file'")
  ∧ setupTechnitiumConnection
      ⟨fun _ => .error (.technitiumError { message := "Request error: refused" }),
       fun _ => .ok ⟨false, true, "primary", none⟩⟩
      "A" ["A", "B"]
      = .error (.attributeError "'Config' object has no attribute 'technitium_ca_bundle_file'") :=
  ⟨rfl, rfl⟩

/-- C6 (amended): against the staged source the claimed failover cannot
happen.  (1) `setup_technitium_connection` raises `AttributeError` on
`technitium_ca_bundle_file` for every environment, client base URL and
endpoint list: the f-string of its opening debug log (`main.py` lines
190-193) reads that undefined `Config` attribute before any endpoint is
attempted or any status published.  (2) `set_active_endpoint` raises the
same `AttributeError` for any endpoint whose normalized URL differs from
the current `client.base_url`, because the replacement client is built from
the same undefined attribute (`app_state.py` line 100) — inside the loop
this raise is caught and merely fails the endpoint.  (3) Hence in the
claim's scenario — endpoints ["A", "B"], the client at A, login against A
raising, B succeeding end to end — the endpoint loop attempts both
endpoints in order but ends with the unready status and no successful
endpoint: failover to B is unreachable.  (4) When every endpoint's attempt
fails, the loop does publish `ConnectionStatus(ready := false, writable :=
false, serverRole := none, catalogMembership := none)` after attempting
every endpoint in order, without raising. -/
theorem C6_failover_unreachable_amended :
    (∀ (env : SetupEnv) (baseUrl : String) (endpoints : List String),
      setupTechnitiumConnection env baseUrl endpoints
        = .error (.attributeError "'Config' object has no attribute 'technitium_ca_bundle_file'"))
  ∧ (∀ (baseUrl endpoint : String), baseUrl ≠ rstripSlash endpoint →
      setActiveEndpoint baseUrl endpoint
        = .error (.attributeError "'Config' object has no attribute 'technitium_ca_bundle_file'"))
  ∧ (∀ (env : SetupEnv) (e : PyExn) (r : ZonePreparationResult),
      env.login "A" = .error e → env.login "B" = .ok () → env.zoneReady "B" = .ok r →
      setupLoop env "A" [] ["A", "B"] = ⟨unreadyStatus, ["A", "B"], none⟩)
  ∧ (∀ (env : SetupEnv) (baseUrl : String) (endpoints : List String),
      (∀ ep ∈ endpoints, attemptFails env baseUrl ep = true) →
      setupLoop env baseUrl [] endpoints = ⟨unreadyStatus, endpoints, none⟩) := by
  refine ⟨fun env baseUrl endpoints => rfl, fun baseUrl endpoint h => ?_, ?_, ?_⟩
  · unfold setActiveEndpoint
    rw [if_neg h]
    rfl
  · intro env e r hA hB hzB
    unfold setupLoop
    rw [hA]
    rfl
  · intro env baseUrl endpoints hfail
    have hall := setupLoop_all_fail env baseUrl endpoints [] hfail
    simpa using hall

/-- C6 witness: the amended theorem applied at concrete inputs — a base URL
that differs from the endpoint after slash normalization; the claim's
environment, where login fails on endpoint A and succeeds on B with a
writable primary zone, the client sitting at A; and an environment where
every endpoint's login fails. -/
theorem C6_failover_unreachable_amended_witness :
    setActiveEndpoint "http://a:5380" "http://b:5380/"
      = .error (.attributeError "'Config' object has no attribute 'technitium_ca_bundle_file'")
  ∧ setupLoop
      ⟨fun ep => if ep = "B" then .ok ()
          else .error (.technitiumError { message := "Request error: refused" }),
       fun _ => .ok ⟨false, true, "primary", none⟩⟩
      "A" [] ["A", "B"]
      = ⟨unreadyStatus, ["A", "B"], none⟩
  ∧ setupLoop
      ⟨fun _ => .error (.technitiumError { message := "Request error: refused" }),
       fun _ => .ok ⟨false, true, "primary", none⟩⟩
      "A" [] ["A", "B"]
      = ⟨unreadyStatus, ["A", "B"], none⟩ :=
  ⟨C6_failover_unreachable_amended.2.1 "http://a:5380" "http://b:5380/" (by decide),
   C6_failover_unreachable_amended.2.2.1
      ⟨fun ep => if ep = "B" then .ok ()
          else .error (.technitiumError { message := "Request error: refused" }),
       fun _ => .ok ⟨false, true, "primary", none⟩⟩
      (.technitiumError { message := "Request error: refused" })
      ⟨false, true, "primary", none⟩ rfl rfl rfl,
   C6_failover_unreachable_amended.2.2.2
      ⟨fun _ => .error (.technitiumError { message := "Request error: refused" }),
       fun _ => .ok ⟨false, true, "primary", none⟩⟩
      "A" ["A", "B"] (by decide)⟩

theorem fetchZoneOptions_error (e : PyExn) :
    fetchZoneOptions (.error e)
      = if isZoneMissingError e then .ok none else .error e := by
  show (if e.isTechnitium then
      if strContains (pyLower e.toStr) "not found" ||
          strContains (pyLower e.toStr) "does not exist"
      then (.ok none : Except PyExn (Option ZoneOptions)) else .error e
    else .error e)
    = if isZoneMissingError e then .ok none else .error e
  unfold isZoneMissingError
  rcases ht : e.isTechnitium with _ | _ <;>
      rcases hc : (strContains (pyLower e.toStr) "not found" ||
        strContains (pyLower e.toStr) "does not exist") with _ | _ <;>
    simp [ht, hc]

/-- C7: during zone preparation, (1) a zone-options fetch error whose
message contains "not found" or "does not exist" is treated as a missing
zone and triggers exactly one zone-creation call regardless of what
follows; (2) with the re-fetch succeeding, the result has
`zoneCreated = true`; (3) if zone options are still missing after creation
the attempt fails with a `RuntimeError` for that endpoint; (4) any other
fetch error propagates unchanged and no zone is created. -/
theorem C7_zone_preparation :
    (∀ (env : ZoneReadyEnv) (z : String) (cat : Option String) (e : PyExn),
      env.fetch1 = .error e → isZoneMissingError e = true →
      (ensureZoneReady env z cat).2 = 1)
  ∧ (∀ (env : ZoneReadyEnv) (z : String) (e : PyExn) (opts : ZoneOptions),
      env.fetch1 = .error e → isZoneMissingError e = true →
      env.createZone = .ok () → env.fetch2 = .ok opts →
      ensureZoneReady env z none
        = (.ok ⟨true, !opts.isReadOnly,
            if opts.isReadOnly then "secondary" else "primary",
            normalizeZoneName opts.catalogZoneName⟩, 1))
  ∧ (∀ (env : ZoneReadyEnv) (z : String) (cat : Option String) (e1 e2 : PyExn),
      env.fetch1 = .error e1 → isZoneMissingError e1 = true →
      env.createZone = .ok () →
      env.fetch2 = .error e2 → isZoneMissingError e2 = true →
      ensureZoneReady env z cat
        = (.error (.runtimeError
            ("Unable to load configuration for zone " ++ z ++ " after creation")), 1))
  ∧ (∀ (env : ZoneReadyEnv) (z : String) (cat : Option String) (e : PyExn),
      env.fetch1 = .error e → isZoneMissingError e = false →
      ensureZoneReady env z cat = (.error e, 0)) := by
  refine ⟨?_, ?_, ?_, ?_⟩
  · intro env z cat e hf1 hm
    unfold ensureZoneReady
    rw [hf1, fetchZoneOptions_error, if_pos hm]
    rcases h2 : env.createZone with ec | u
    · rfl
    · cases u
      rcases h3 : fetchZoneOptions env.fetch2 with e2 | oo
      · rfl
      · rcases oo with _ | opts <;> rfl
  · intro env z e opts hf1 hm hc hf2
    unfold ensureZoneReady
    rw [hf1, fetchZoneOptions_error, if_pos hm, hc, hf2]
    rfl
  · intro env z cat e1 e2 hf1 hm1 hc hf2 hm2
    unfold ensureZoneReady
    rw [hf1, fetchZoneOptions_error, if_pos hm1, hc, hf2, fetchZoneOptions_error,
      if_pos hm2]
  · intro env z cat e hf1 hm
    unfold ensureZoneReady
    rw [hf1, fetchZoneOptions_error, if_neg (by rw [hm]; exact Bool.false_ne_true)]

/-- C7 witness: the theorem's four parts at concrete environments — a
"zone not found" first fetch with successful creation and re-fetch, a
still-missing zone after creation, and a non-missing fetch error. -/
theorem C7_zone_preparation_witness :
    ((ensureZoneReady
        ⟨.error (.technitiumError { message := "API error: zone example.com was not found" }),
         .ok (), .ok ⟨"example.com", false, none, []⟩,
         ⟨.ok (), .ok ⟨"example.com", false, none, []⟩⟩⟩
        "example.com" none).2 = 1)
  ∧ (ensureZoneReady
        ⟨.error (.technitiumError { message := "API error: zone example.com was not found" }),
         .ok (), .ok ⟨"example.com", false, none, []⟩,
         ⟨.ok (), .ok ⟨"example.com", false, none, []⟩⟩⟩
        "example.com" none
      = (.ok ⟨true, true, "primary", none⟩, 1))
  ∧ (ensureZoneReady
        ⟨.error (.technitiumError { message := "API error: zone example.com was not found" }),
         .ok (),
         .error (.technitiumError { message := "API error: zone example.com does not exist" }),
         ⟨.ok (), .ok ⟨"example.com", false, none, []⟩⟩⟩
        "example.com" none
      = (.error (.runtimeError
          "Unable to load configuration for zone example.com after creation"), 1))
  ∧ (ensureZoneReady
        ⟨.error (.technitiumError { message := "Server responded with status code 500" }),
         .ok (), .ok ⟨"example.com", false, none, []⟩,
         ⟨.ok (), .ok ⟨"example.com", false, none, []⟩⟩⟩
        "example.com" none
      = (.error (.technitiumError { message := "Server responded with status code 500" }), 0)) := by
  refine ⟨?_, ?_, ?_, ?_⟩
  · exact C7_zone_preparation.1 _ "example.com" none _ rfl (by decide)
  · have := C7_zone_preparation.2.1
      ⟨.error (.technitiumError { message := "API error: zone example.com was not found" }),
       .ok (), .ok ⟨"example.com", false, none, []⟩,
       ⟨.ok (), .ok ⟨"example.com", false, none, []⟩⟩⟩
      "example.com" _ ⟨"example.com", false, none, []⟩ rfl (by decide) rfl rfl
    simpa using this
  · exact C7_zone_preparation.2.2.1 _ "example.com" none _ _ rfl (by decide) rfl rfl
      (by decide)
  · exact C7_zone_preparation.2.2.2 _ "example.com" none _ rfl (by decide)

theorem rlFind_rlStore : ∀ (st : RLState) (key : String) (e : RLEntry),
    rlFind (rlStore st key e) key = some e := by
  intro st key e
  induction st with
  | nil => simp [rlStore, rlFind, List.find?]
  | cons p rest ih =>
      rcases p with ⟨k', e'⟩
      unfold rlStore
      by_cases hk : k' = key
      · rw [if_pos hk]
        simp [rlFind, List.find?]
      · rw [if_neg hk]
        simpa [rlFind, List.find?, hk] using ih

/-- C8: the token-bucket rate limiter at `requests_per_minute = 60`,
`burst = 10`.  (1) A first observation initializes the bucket to `burst`
tokens and the call consumes one; (2) ten calls at the same instant all
succeed and the eleventh fails; (3) after two idle seconds two further
calls succeed (refill at `60/60 = 1` token per second); (4) for any
parameters, state and elapsed time, the stored token count after a call
never exceeds `burst`. -/
theorem C8_rate_limiter_bucket :
    (checkRateLimit (rlInit 60 10) [] "k" 0 = (true, [("k", ⟨9, 0⟩)]))
  ∧ ((rlRun (rlInit 60 10) "k" [] (List.replicate 11 0)).1
      = List.replicate 10 true ++ [false])
  ∧ ((rlRun (rlInit 60 10) "k"
        (rlRun (rlInit 60 10) "k" [] (List.replicate 11 0)).2 [2, 2]).1
      = [true, true])
  ∧ (∀ (rl : RateLimiter) (st : RLState) (key : String) (now : ℚ) (ent : RLEntry),
      rlFind (checkRateLimit rl st key now).2 key = some ent →
      ent.tokens ≤ rl.burst) := by
  have s0 : checkRateLimit (rlInit 60 10) [] "k" 0
      = (true, [("k", ⟨9, 0⟩)]) := by
    norm_num [checkRateLimit, rlInit, rlFind, rlStore, List.find?, min_def]
  have s1 : checkRateLimit (rlInit 60 10) [("k", ⟨9, 0⟩)] "k" 0
      = (true, [("k", ⟨8, 0⟩)]) := by
    norm_num [checkRateLimit, rlInit, rlFind, rlStore, List.find?, min_def]
  have s2 : checkRateLimit (rlInit 60 10) [("k", ⟨8, 0⟩)] "k" 0
      = (true, [("k", ⟨7, 0⟩)]) := by
    norm_num [checkRateLimit, rlInit, rlFind, rlStore, List.find?, min_def]
  have s3 : checkRateLimit (rlInit 60 10) [("k", ⟨7, 0⟩)] "k" 0
      = (true, [("k", ⟨6, 0⟩)]) := by
    norm_num [checkRateLimit, rlInit, rlFind, rlStore, List.find?, min_def]
  have s4 : checkRateLimit (rlInit 60 10) [("k", ⟨6, 0⟩)] "k" 0
      = (true, [("k", ⟨5, 0⟩)]) := by
    norm_num [checkRateLimit, rlInit, rlFind, rlStore, List.find?, min_def]
  have s5 : checkRateLimit (rlInit 60 10) [("k", ⟨5, 0⟩)] "k" 0
      = (true, [("k", ⟨4, 0⟩)]) := by
    norm_num [checkRateLimit, rlInit, rlFind, rlStore, List.find?, min_def]
  have s6 : checkRateLimit (rlInit 60 10) [("k", ⟨4, 0⟩)] "k" 0
      = (true, [("k", ⟨3, 0⟩)]) := by
    norm_num [checkRateLimit, rlInit, rlFind, rlStore, List.find?, min_def]
  have s7 : checkRateLimit (rlInit 60 10) [("k", ⟨3, 0⟩)] "k" 0
      = (true, [("k", ⟨2, 0⟩)]) := by
    norm_num [checkRateLimit, rlInit, rlFind, rlStore, List.find?, min_def]
  have s8 : checkRateLimit (rlInit 60 10) [("k", ⟨2, 0⟩)] "k" 0
      = (true, [("k", ⟨1, 0⟩)]) := by
    norm_num [checkRateLimit, rlInit, rlFind, rlStore, List.find?, min_def]
  have s9 : checkRateLimit (rlInit 60 10) [("k", ⟨1, 0⟩)] "k" 0
      = (true, [("k", ⟨0, 0⟩)]) := by
    norm_num [checkRateLimit, rlInit, rlFind, rlStore, List.find?, min_def]
  have s10 : checkRateLimit (rlInit 60 10) [("k", ⟨0, 0⟩)] "k" 0
      = (false, [("k", ⟨0, 0⟩)]) := by
    norm_num [checkRateLimit, rlInit, rlFind, rlStore, List.find?, min_def]
  have s11 : checkRateLimit (rlInit 60 10) [("k", ⟨0, 0⟩)] "k" 2
      = (true, [("k", ⟨1, 2⟩)]) := by
    norm_num [checkRateLimit, rlInit, rlFind, rlStore, List.find?, min_def]
  have s12 : checkRateLimit (rlInit 60 10) [("k", ⟨1, 2⟩)] "k" 2
      = (true, [("k", ⟨0, 2⟩)]) := by
    norm_num [checkRateLimit, rlInit, rlFind, rlStore, List.find?, min_def]
  have hrep : List.replicate 11 (0 : ℚ) = [0, 0, 0, 0, 0, 0, 0, 0, 0, 0, 0] := rfl
  have hrun : rlRun (rlInit 60 10) "k" [] [0, 0, 0, 0, 0, 0, 0, 0, 0, 0, 0]
      = (List.replicate 10 true ++ [false], [("k", ⟨0, 0⟩)]) := by
    simp only [rlRun, s0, s1, s2, s3, s4, s5, s6, s7, s8, s9, s10]
    rfl
  have hrun2 : rlRun (rlInit 60 10) "k" [("k", ⟨0, 0⟩)] [2, 2]
      = ([true, true], [("k", ⟨0, 2⟩)]) := by
    simp only [rlRun, s11, s12]
  refine ⟨s0, ?_, ?_, ?_⟩
  · rw [hrep, hrun]
  · rw [hrep, hrun, hrun2]
  intro rl st key now ent hent
  unfold checkRateLimit at hent
  set tokens := min rl.burst
    ((((rlFind st key).getD ⟨rl.burst, now⟩).tokens +
      (now - ((rlFind st key).getD ⟨rl.burst, now⟩).lastUpdate) * rl.rate)) with htok
  have hmin : tokens ≤ rl.burst := min_le_left _ _
  by_cases hge : tokens ≥ 1
  · rw [if_pos hge, rlFind_rlStore] at hent
    have : ent = ⟨tokens - 1, now⟩ := by
      exact (Option.some.inj hent).symm
    rw [this]
    have : tokens - 1 ≤ tokens := sub_le_self _ zero_le_one
    exact le_trans this hmin
  · rw [if_neg hge, rlFind_rlStore] at hent
    have : ent = ⟨tokens, now⟩ := (Option.some.inj hent).symm
    rw [this]
    exact hmin

theorem statusIs_unique {st : Option Json} {a b : String} (h : statusIs st a = true)
    (hab : b ≠ a) : statusIs st b = false := by
  unfold statusIs at *
  rcases st with _ | v
  · simp at h
  · rcases v with _ | _ | _ | sv | _ | _
    · simp at h
    · simp at h
    · simp at h
    · simp only [decide_eq_true_eq] at h
      subst h
      simp only [decide_eq_false_iff_not]
      exact fun hcontr => hab hcontr.symm
    · simp at h
    · simp at h

/-- C4 counterexample: for the 2xx JSON body `{"status": "ok",
"response": 5}` the claim says the envelope handling returns the payload
under `response` — but `_post` raises `TechnitiumError("Unexpected
response payload format")` for a non-object, non-null payload, an outcome
outside the claim's list. -/
theorem C4_nonobject_payload_counterexample :
    postEnvelope [("status", Json.str "ok"), ("response", Json.num 5)]
      = .error (.technitiumError { message := "Unexpected response payload format" }) :=
  rfl

/-- C4 (amended): the envelope dispatch on a parsed 2xx JSON object has
exactly these outcomes — status `"error"` raises `TechnitiumError`
carrying `errorMessage`, `stackTrace` and `innerErrorMessage`; status
`"invalid-token"` raises the distinct `InvalidTokenError` subtype; any
other status raises the generic "Unexpected response status" error; and
status `"ok"` returns the object under `response`, with a missing or
`null` payload treated as an empty object — except that an `"ok"`
envelope whose payload is neither an object nor `null` raises
`TechnitiumError("Unexpected response payload format")`. -/
theorem C4_envelope_amended (o : List (String × Json)) :
    (statusIs (jLookup o "status") "error" = true →
      postEnvelope o = .error (.technitiumError
        { message := "API error: " ++ jGetStr o "errorMessage" "Unknown server error"
          errorMessage := some (jGetStr o "errorMessage" "Unknown server error")
          stackTrace := jGetOptStr o "stackTrace"
          innerError := jGetOptStr o "innerErrorMessage" }))
  ∧ (statusIs (jLookup o "status") "invalid-token" = true →
      postEnvelope o = .error (.invalidTokenError { message := "Invalid or expired token" }))
  ∧ (statusIs (jLookup o "status") "error" = false →
     statusIs (jLookup o "status") "invalid-token" = false →
     statusIs (jLookup o "status") "ok" = false →
      postEnvelope o = .error (.technitiumError
        { message := "Unexpected response status: " ++
            (match jLookup o "status" with
             | some v => jsonToPyStr v
             | none => "None") }))
  ∧ (statusIs (jLookup o "status") "ok" = true →
      (jLookup o "response" = none → postEnvelope o = .ok [])
      ∧ (jLookup o "response" = some .null → postEnvelope o = .ok [])
      ∧ (∀ fields, jLookup o "response" = some (.obj fields) → postEnvelope o = .ok fields)
      ∧ (∀ v, jLookup o "response" = some v → v ≠ .null → (∀ fields, v ≠ .obj fields) →
          postEnvelope o = .error (.technitiumError
            { message := "Unexpected response payload format" }))) := by
  refine ⟨?_, ?_, ?_, ?_⟩
  · intro hs
    unfold postEnvelope postRawEnvelope
    rw [if_pos hs]
    rfl
  · intro hs
    have herr : statusIs (jLookup o "status") "error" = false :=
      statusIs_unique hs (by decide)
    unfold postEnvelope postRawEnvelope
    rw [if_neg (by rw [herr]; exact Bool.false_ne_true), if_pos hs]
    rfl
  · intro h1 h2 h3
    unfold postEnvelope postRawEnvelope
    rw [if_neg (by rw [h1]; exact Bool.false_ne_true),
        if_neg (by rw [h2]; exact Bool.false_ne_true),
        if_pos (by rw [h3]; rfl)]
    rfl
  · intro hs
    have h1 : statusIs (jLookup o "status") "error" = false :=
      statusIs_unique hs (by decide)
    have h2 : statusIs (jLookup o "status") "invalid-token" = false :=
      statusIs_unique hs (by decide)
    have hraw : postRawEnvelope o = .ok o := by
      unfold postRawEnvelope
      rw [if_neg (by rw [h1]; exact Bool.false_ne_true),
          if_neg (by rw [h2]; exact Bool.false_ne_true),
          if_neg (by rw [hs]; simp)]
    refine ⟨?_, ?_, ?_, ?_⟩
    · intro hresp
      unfold postEnvelope
      rw [hraw, exceptBind_ok]
      unfold postExtractPayload
      rw [hresp]
    · intro hresp
      unfold postEnvelope
      rw [hraw, exceptBind_ok]
      unfold postExtractPayload
      rw [hresp]
    · intro fields hresp
      unfold postEnvelope
      rw [hraw, exceptBind_ok]
      unfold postExtractPayload
      rw [hresp]
    · intro v hresp hnull hobj
      unfold postEnvelope
      rw [hraw, exceptBind_ok]
      unfold postExtractPayload
      rw [hresp]
      rcases v with _ | b | i | sv | xs | fields
      · exact absurd rfl hnull
      · rfl
      · rfl
      · rfl
      · rfl
      · exact absurd rfl (hobj fields)

/-- C4 witness: the amended dispatch applied to concrete envelopes, one per
status outcome. -/
theorem C4_envelope_amended_witness :
    postEnvelope [("status", Json.str "error"), ("errorMessage", Json.str "boom")]
      = .error (.technitiumError
        { message := "API error: boom", errorMessage := some "boom" })
  ∧ postEnvelope [("status", Json.str "invalid-token")]
      = .error (.invalidTokenError { message := "Invalid or expired token" })
  ∧ postEnvelope [("status", Json.str "weird")]
      = .error (.technitiumError { message := "Unexpected response status: weird" })
  ∧ postEnvelope [("status", Json.str "ok")] = .ok []
  ∧ postEnvelope [("status", Json.str "ok"),
      ("response", Json.obj [("token", Json.str "t")])]
      = .ok [("token", Json.str "t")] :=
  ⟨(C4_envelope_amended [("status", Json.str "error"),
      ("errorMessage", Json.str "boom")]).1 rfl,
   (C4_envelope_amended [("status", Json.str "invalid-token")]).2.1 rfl,
   (C4_envelope_amended [("status", Json.str "weird")]).2.2.1 rfl rfl rfl,
   ((C4_envelope_amended [("status", Json.str "ok")]).2.2.2 rfl).1 rfl,
   ((C4_envelope_amended [("status", Json.str "ok"),
      ("response", Json.obj [("token", Json.str "t")])]).2.2.2 rfl).2.2.1
     [("token", Json.str "t")] rfl⟩
